import Mathlib

/-!
Shallow embedding of the validation-and-persistence pipeline of the
user-profile CRUD backend (models `Service.js`, `User.js`, controllers
`serviceController.js` and the user controller, middleware `upload.js`).

Conventions of the embedding:
* JavaScript strings are Lean `String`s; `value.trim()` is `jsTrim`,
  `value.toLowerCase()` is `jsLower` (the inputs of interest are
  ASCII).
* A raw field value from a request body is `RawVal`: absent/undefined,
  null, or a string (non-string scalars reach the sanitizer through
  `String(value)` coercion, so a string covers them).
* `undefined | "" | string` results of `sanitizeString` are
  `Option String`, with `none` for `undefined`; JavaScript truthiness of
  such a value is `truthy`.
* MongoDB ObjectIds are the numeric value of their 24 hex digits;
  documents are Lean structures whose fields are `Option String`
  (`none` = field absent from the document); a collection is a
  `List` of records; `Date.now`-style timestamps are `Nat` and are passed
  to each operation explicitly.
* Thrown `ValidationError`s and driver duplicate-key errors are the
  `Except` error type `AppErr`.
-/

deriving instance DecidableEq for Except

namespace CrudApp

/-- `value.trim()` as a computation on the character list (JavaScript
strips leading and trailing whitespace). -/
def trimChars (cs : List Char) : List Char :=
  ((cs.dropWhile Char.isWhitespace).reverse.dropWhile Char.isWhitespace).reverse

/-- `value.trim()`. -/
def jsTrim (s : String) : String :=
  String.mk (trimChars s.data)

/-- `value.toLowerCase()` as a computation on the character list. -/
def jsLower (s : String) : String :=
  String.mk (s.data.map Char.toLower)

/-- `s.startsWith(pre)` as a computation on the character lists. -/
def jsStartsWith (s pre : String) : Bool :=
  pre.data.isPrefixOf s.data

/-- `s.endsWith(sfx)` as a computation on the character lists. -/
def jsEndsWith (s sfx : String) : Bool :=
  sfx.data.isSuffixOf s.data

/-- A raw value of one body field as the sanitizer receives it. -/
inductive RawVal where
  | undef
  | null
  | str (s : String)
deriving DecidableEq, Repr

/-- The two sanitizer modes: `full` is create mode (`partial: false` in the
source) and `part` is update mode (`partial: true`). -/
inductive Mode where
  | full
  | part
deriving DecidableEq, Repr

/-- JS word character, the `\w` class of the source regexes. -/
def isWordChar (c : Char) : Bool :=
  c.isAlpha || c.isDigit || c = '_'

/-- Separator characters admitted between word runs by the email regex
(`[\.-]?`). -/
def isSepChar (c : Char) : Bool :=
  c = '.' || c = '-'

/-- Tail of a word-run sequence: word characters with single interior
`.`/`-` separators, each separator followed by a word character. -/
def wordTail : List Char → Bool
  | [] => true
  | c :: cs =>
    if isWordChar c then wordTail cs
    else if isSepChar c then
      match cs with
      | [] => false
      | c2 :: cs2 => isWordChar c2 && wordTail cs2
    else false

/-- Language of `\w+([\.-]?\w+)*`: nonempty, starts with a word character,
separators single and interior. -/
def matchWordSeq (cs : List Char) : Bool :=
  match cs with
  | [] => false
  | c :: rest => isWordChar c && wordTail rest

/-- Language of the email domain `\w+([\.-]?\w+)*(\.\w{2,3})+`: some split
point carries a final `.` followed by 2 or 3 word characters, with a
word-run sequence before it (every further `(\.\w{2,3})` group is itself a
legal `[\.-]?\w+` iteration, so this split characterises the language). -/
def matchEmailDomain (cs : List Char) : Bool :=
  (List.range cs.length).any fun i =>
    match cs.drop i with
    | c :: b =>
      c = '.' && matchWordSeq (cs.take i) &&
        decide (2 ≤ b.length) && decide (b.length ≤ 3) && b.all isWordChar
    | [] => false

/-- `EMAIL_PATTERN.test`, the language of
`/^\w+([\.-]?\w+)*@\w+([\.-]?\w+)*(\.\w{2,3})+$/` via the split at `@`. -/
def emailTest (s : String) : Bool :=
  let cs := s.toList
  (List.range cs.length).any fun i =>
    match cs.drop i with
    | c :: d => c = '@' && matchWordSeq (cs.take i) && matchEmailDomain d
    | [] => false

/-- `TRUVEDA_PATTERN.test`, the language of `/^[a-zA-Z0-9_]+$/`. -/
def truvedaTest (s : String) : Bool :=
  let cs := s.toList
  !cs.isEmpty && cs.all isWordChar

/-- The two validation regexes declared in `User.js`. -/
inductive Pat where
  | truveda
  | email
deriving DecidableEq, Repr

/-- `pattern.test(value)` for the two declared patterns. -/
def Pat.test : Pat → String → Bool
  | .truveda, s => truvedaTest s
  | .email, s => emailTest s

/-- Options object accepted by `assignStringField` / `sanitizeString`
(the schema of one string field). -/
structure StrOpts where
  required : Bool := false
  trim : Bool := true
  lower : Bool := false
  maxLength : Option Nat := none
  dflt : Option String := none
  pat : Option Pat := none
  patMsg : String := ""

/-- `sanitizeString(value, { trim, lowercase })`: `undefined`/`null` give
`undefined`; otherwise trim (unless disabled), return `""` when empty, and
lower-case when requested. -/
def sanitizeString (v : RawVal) (o : StrOpts) : Option String :=
  match v with
  | .undef => none
  | .null => none
  | .str s =>
    let r := if o.trim then jsTrim s else s
    if r.length = 0 then some ""
    else some (if o.lower then jsLower r else r)

/-- JavaScript truthiness of a sanitized value: a nonempty string. -/
def truthy : Option String → Bool
  | none => false
  | some s => s.length != 0

/-- The `maxLength` and `pattern` error messages produced for a truthy
value `s` of field `f` (`validateLength` then `validatePattern`). -/
def lengthPatternErrs (f : String) (s : String) (o : StrOpts) : List String :=
  (match o.maxLength with
   | some mx => if s.length > mx then [f ++ " must be at most " ++ toString mx ++ " characters"] else []
   | none => []) ++
  (match o.pat with
   | some p => if !(p.test s) then [o.patMsg] else []
   | none => [])

/-- `assignStringField(field, options)` of `prepareServiceDoc` /
`prepareUserDoc`: returns the value assigned to `doc[field]` (`none` when
the key is omitted) and the error messages pushed, in source order. -/
def assignResult (f : String) (raw : RawVal) (o : StrOpts) (m : Mode) :
    Option String × List String :=
  let value := sanitizeString raw o
  if !(truthy value) && m = Mode.full then
    if o.required then (none, [f ++ " is required"])
    else
      match o.dflt with
      | some d => (some d, [])
      | none => (none, [])
  else if truthy value then
    (value, lengthPatternErrs f (value.getD "") o)
  else if o.dflt.isSome && m = Mode.full then
    (o.dflt, [])
  else if !(truthy value) && o.required && m = Mode.full then
    (none, [f ++ " is required"])
  else
    (none, [])

/-- `errors.join(", ")` before it is wrapped in a `ValidationError`. -/
def joinErrs (es : List String) : String :=
  String.intercalate ", " es

/-- Domain errors: a thrown `ValidationError`, or a store-level
duplicate-key (`E11000`) error naming the indexed field. -/
inductive AppErr where
  | validation (msg : String)
  | duplicateKey (field : String)
  | unexpected
deriving DecidableEq, Repr

/-- A hex digit, as accepted by `ObjectId.isValid` on a 24-character
string. -/
def isHexDigit (c : Char) : Bool :=
  c.isDigit || ('a' ≤ c && c ≤ 'f') || ('A' ≤ c && c ≤ 'F')

/-- `ObjectId.isValid` on the string form: exactly 24 hex characters. -/
def isValidObjectId (s : String) : Bool :=
  s.length = 24 && s.toList.all isHexDigit

/-- Numeric value of one hex digit. -/
def hexVal (c : Char) : Nat :=
  if c.isDigit then c.toNat - '0'.toNat
  else if 'a' ≤ c && c ≤ 'f' then c.toNat - 'a'.toNat + 10
  else if 'A' ≤ c && c ≤ 'F' then c.toNat - 'A'.toNat + 10
  else 0

/-- The 12-byte value an ObjectId string denotes (case-insensitive, as in
the driver). -/
def objectIdVal (s : String) : Nat :=
  s.toList.foldl (fun a c => 16 * a + hexVal c) 0

/-- `toObjectId` shared by the mongodb models: trim, validate, convert;
a `ValidationError` with the model's message on failure. -/
def toObjectId (invalidMsg : String) (id : String) : Except AppErr Nat :=
  let v := jsTrim id
  if v.length != 0 && isValidObjectId v then .ok (objectIdVal v)
  else .error (.validation invalidMsg)

/-! ### Service model (`models/Service.js`, mongodb variant) -/

def DEFAULT_SERVICE_PHOTO : String := "/uploads/default-service.png"
def MAX_SERVICE_NAME : Nat := 100
def MAX_SHORT_DESC : Nat := 200
def MAX_CONTENT : Nat := 5000

/-- Raw request payload for a Service, one `RawVal` per schema field. -/
structure ServicePayload where
  servicePhoto : RawVal := .undef
  serviceName : RawVal := .undef
  shortDescription : RawVal := .undef
  content : RawVal := .undef
  price : RawVal := .undef
  strikerPrice : RawVal := .undef
deriving DecidableEq, Repr

/-- The `doc` built by `prepareServiceDoc`: each key present (`some`) or
omitted (`none`). -/
structure ServiceFields where
  servicePhoto : Option String := none
  serviceName : Option String := none
  shortDescription : Option String := none
  content : Option String := none
  price : Option String := none
  strikerPrice : Option String := none
deriving DecidableEq, Repr

def servicePhotoOpts : StrOpts := { dflt := some DEFAULT_SERVICE_PHOTO }
def serviceNameOpts : StrOpts := { required := true, maxLength := some MAX_SERVICE_NAME }
def shortDescriptionOpts : StrOpts := { required := true, maxLength := some MAX_SHORT_DESC }
def contentOpts : StrOpts := { required := true, maxLength := some MAX_CONTENT }
def priceOpts : StrOpts := { required := true }
def strikerPriceOpts : StrOpts := { dflt := some "" }

/-- `prepareServiceDoc(payload, { partial })`: run `assignStringField` on
the six declared fields in source order, then throw the accumulated
errors or return the doc. -/
def prepareServiceDoc (p : ServicePayload) (m : Mode) :
    Except (List String) ServiceFields :=
  let r0 := assignResult "servicePhoto" p.servicePhoto servicePhotoOpts m
  let r1 := assignResult "serviceName" p.serviceName serviceNameOpts m
  let r2 := assignResult "shortDescription" p.shortDescription shortDescriptionOpts m
  let r3 := assignResult "content" p.content contentOpts m
  let r4 := assignResult "price" p.price priceOpts m
  let r5 := assignResult "strikerPrice" p.strikerPrice strikerPriceOpts m
  let errors := r0.2 ++ r1.2 ++ r2.2 ++ r3.2 ++ r4.2 ++ r5.2
  if errors.isEmpty then
    .ok { servicePhoto := r0.1, serviceName := r1.1, shortDescription := r2.1,
          content := r3.1, price := r4.1, strikerPrice := r5.1 }
  else
    .error errors

/-- `Object.keys(updates).length === 0` on a prepared Service doc. -/
def ServiceFields.isEmptyDoc (u : ServiceFields) : Bool :=
  u.servicePhoto.isNone && u.serviceName.isNone && u.shortDescription.isNone &&
  u.content.isNone && u.price.isNone && u.strikerPrice.isNone

/-- One stored Service document. -/
structure ServiceRecord where
  rid : Nat
  fields : ServiceFields
  createdAt : Nat
  updatedAt : Nat
deriving DecidableEq, Repr

/-- `$set` of one optional field: a key present in the update replaces the
stored value, an absent key leaves it. -/
def setField (upd old : Option String) : Option String :=
  match upd with
  | some v => some v
  | none => old

/-- Effect of `findOneAndUpdate(_, { $set: { ...updates, updatedAt } })` on
one matched Service record. -/
def applyServiceUpdates (r : ServiceRecord) (u : ServiceFields) (now : Nat) :
    ServiceRecord :=
  { r with
    updatedAt := now
    fields := {
      servicePhoto := setField u.servicePhoto r.fields.servicePhoto
      serviceName := setField u.serviceName r.fields.serviceName
      shortDescription := setField u.shortDescription r.fields.shortDescription
      content := setField u.content r.fields.content
      price := setField u.price r.fields.price
      strikerPrice := setField u.strikerPrice r.fields.strikerPrice } }

/-- `findOneAndUpdate` with `returnDocument: "after"`: rewrite the first
record whose id matches, returning it (post-update) and the new
collection. -/
def updateFirstService (store : List ServiceRecord) (oid : Nat)
    (f : ServiceRecord → ServiceRecord) :
    Option ServiceRecord × List ServiceRecord :=
  match store with
  | [] => (none, [])
  | r :: rest =>
    if r.rid = oid then (some (f r), f r :: rest)
    else
      let rec2 := updateFirstService rest oid f
      (rec2.1, r :: rec2.2)

/-- `findOneAndDelete`: remove the first record whose id matches, returning
it and the new collection. -/
def removeFirstService (store : List ServiceRecord) (oid : Nat) :
    Option ServiceRecord × List ServiceRecord :=
  match store with
  | [] => (none, [])
  | r :: rest =>
    if r.rid = oid then (some r, rest)
    else
      let rec2 := removeFirstService rest oid
      (rec2.1, r :: rec2.2)

/-- `createService(data)`: prepare in full mode, stamp both timestamps with
one `new Date()`, insert (`newId` is the ObjectId the store generates). -/
def createService (store : List ServiceRecord) (data : ServicePayload)
    (now newId : Nat) : Except AppErr (ServiceRecord × List ServiceRecord) :=
  match prepareServiceDoc data .full with
  | .error es => .error (.validation (joinErrs es))
  | .ok doc =>
    let r : ServiceRecord := { rid := newId, fields := doc, createdAt := now, updatedAt := now }
    .ok (r, store ++ [r])

/-- `findServiceById(id)`: validate the id, then `findOne` (absent target
is `null`, not an error). -/
def findServiceById (store : List ServiceRecord) (id : String) :
    Except AppErr (Option ServiceRecord) :=
  match toObjectId "Invalid service id" id with
  | .error e => .error e
  | .ok oid => .ok (store.find? fun r => r.rid = oid)

/-- `updateService(id, data)`: prepare in partial mode, reject an empty
update doc, stamp `updatedAt`, then `findOneAndUpdate` (a missing target
yields `none`, mirroring the `null` the driver returns). -/
def updateService (store : List ServiceRecord) (id : String)
    (data : ServicePayload) (now : Nat) :
    Except AppErr (Option ServiceRecord × List ServiceRecord) :=
  match prepareServiceDoc data .part with
  | .error es => .error (.validation (joinErrs es))
  | .ok updates =>
    if updates.isEmptyDoc then
      .error (.validation "At least one field must be provided to update")
    else
      match toObjectId "Invalid service id" id with
      | .error e => .error e
      | .ok oid => .ok (updateFirstService store oid (applyServiceUpdates · updates now))

/-- `deleteService(id)`: validate the id, `findOneAndDelete`, and throw a
`ValidationError` reading "Service not found" when nothing matched. -/
def deleteService (store : List ServiceRecord) (id : String) :
    Except AppErr (ServiceRecord × List ServiceRecord) :=
  match toObjectId "Invalid service id" id with
  | .error e => .error e
  | .ok oid =>
    match removeFirstService store oid with
    | (none, _) => .error (.validation "Service not found")
    | (some r, store') => .ok (r, store')

/-! ### Pagination and search (`listServices` / `listUsers`) -/

/-- A raw `page`/`limit` input as `parseInt(x, 10)` sees it: absent, an
integer, or something that parses to `NaN`. -/
inductive QVal where
  | undef
  | int (n : Int)
  | nan
deriving DecidableEq, Repr

/-- `parseInt(v, 10) || d`: `NaN` and `0` both fall back to the default. -/
def parsedOr (v : QVal) (d : Int) : Int :=
  match v with
  | .int n => if n = 0 then d else n
  | _ => d

/-- `Math.max(parseInt(page, 10) || 1, 1)`. -/
def effectivePage (page : QVal) : Int :=
  max (parsedOr page 1) 1

/-- `Math.min(Math.max(parseInt(limit, 10) || 10, 1), 100)`. -/
def effectiveLimit (limit : QVal) : Int :=
  min (max (parsedOr limit 10) 1) 100

/-- Case-insensitive substring test: the model of `new RegExp(t, "i")`
matching a document field (faithful for metacharacter-free search
terms). -/
def ciContains (hay needle : String) : Bool :=
  let h := (jsLower hay).toList
  let n := (jsLower needle).toList
  (List.range (h.length + 1)).any fun i => n.isPrefixOf (h.drop i)

/-- A regex query condition on an optional document field: a missing field
never matches. -/
def fieldMatches (f : Option String) (needle : String) : Bool :=
  match f with
  | some s => ciContains s needle
  | none => false

/-- The `$or` filter built by `listServices`: empty search matches all,
otherwise `serviceName` or `shortDescription` contains the trimmed term. -/
def serviceQueryMatches (search : String) (r : ServiceRecord) : Bool :=
  let t := jsTrim search
  if t.length = 0 then true
  else fieldMatches r.fields.serviceName t || fieldMatches r.fields.shortDescription t

/-- Insertion step of the `sort({ createdAt: -1 })` model, generic in the
sort key. -/
def insertDescBy {α : Type} (key : α → Nat) (r : α) : List α → List α
  | [] => [r]
  | x :: xs =>
    if key x ≤ key r then r :: x :: xs
    else x :: insertDescBy key r xs

/-- The cursor's `sort({ createdAt: -1 })`: sort with the key
descending. -/
def sortDescBy {α : Type} (key : α → Nat) : List α → List α
  | [] => []
  | r :: rs => insertDescBy key r (sortDescBy key rs)

/-- The object `listServices` / `listUsers` resolves with. -/
structure ListResult (α : Type) where
  data : List α
  total : Nat
  totalPages : Nat
  page : Int
  limit : Int
deriving Repr

/-- `total ? Math.ceil(total / limitNumber) : 0` over naturals. -/
def totalPagesOf (total limitNat : Nat) : Nat :=
  if total = 0 then 0 else (total + limitNat - 1) / limitNat

/-- `listServices({ page, limit, search })`: clamp paging inputs, filter,
sort by creation time descending, slice the page, and count the filtered
set. -/
def listServices (store : List ServiceRecord) (page limit : QVal)
    (search : String) : ListResult ServiceRecord :=
  let pageNumber := effectivePage page
  let limitNumber := effectiveLimit limit
  let skip := ((pageNumber - 1) * limitNumber).toNat
  let matching := store.filter (serviceQueryMatches search)
  let records := ((sortDescBy ServiceRecord.createdAt matching).drop skip).take limitNumber.toNat
  let total := matching.length
  { data := records
    total := total
    totalPages := totalPagesOf total limitNumber.toNat
    page := pageNumber
    limit := limitNumber }

/-! ### User model (`models/User.js`, mongodb variant) -/

def DEFAULT_PROFILE_PHOTO : String := "/uploads/default-avatar.png"
def MAX_FIRST_NAME : Nat := 50
def MAX_LAST_NAME : Nat := 50
def MAX_DISPLAY_NAME : Nat := 100
def MAX_INTRO : Nat := 200
def MAX_ABOUT : Nat := 2000

/-- Raw `socialLinks` sub-object of a request payload. -/
structure SLPayload where
  instagramLink : RawVal := .undef
  facebookLink : RawVal := .undef
  youtubeLink : RawVal := .undef
  linkedinLink : RawVal := .undef
deriving DecidableEq, Repr

/-- The `socialLinks` sub-document: keys present or absent. -/
structure SLDoc where
  instagramLink : Option String := none
  facebookLink : Option String := none
  youtubeLink : Option String := none
  linkedinLink : Option String := none
deriving DecidableEq, Repr

/-- `DEFAULT_SOCIAL_LINKS`, all four links the empty string. -/
def defaultSLDoc : SLDoc :=
  { instagramLink := some "", facebookLink := some "",
    youtubeLink := some "", linkedinLink := some "" }

/-- A raw `isActive` value: absent, an actual boolean, a string, or any
other value (which `coerceBoolean` rejects). -/
inductive RawBool where
  | undef
  | bool (b : Bool)
  | str (s : String)
  | other
deriving DecidableEq, Repr

/-- `coerceBoolean(value, defaultValue)`: accepts booleans and the string
forms `true/1/yes` and `false/0/no` (case-insensitive); anything else
throws a `ValidationError` at once. -/
def coerceBoolean (v : RawBool) (d : Bool) : Except String Bool :=
  match v with
  | .undef => .ok d
  | .bool b => .ok b
  | .str s =>
    let n := jsLower s
    if n = "true" || n = "1" || n = "yes" then .ok true
    else if n = "false" || n = "0" || n = "no" then .ok false
    else .error "isActive must be a boolean value"
  | .other => .error "isActive must be a boolean value"

/-- One key of `buildSocialLinks`: in full mode an unsupplied key keeps the
default `""`; a supplied key is sanitized with `?? ""` catching a null. -/
def slAssign (m : Mode) (raw : RawVal) : Option String :=
  match raw with
  | .undef => if m = Mode.full then some "" else none
  | _ => some ((sanitizeString raw {}).getD "")

/-- `buildSocialLinks(input, { partial })`; the `input` parameter defaults
to `{}` when the payload key is `undefined` (the controllers never pass
`null` here), and an all-absent partial result is dropped. -/
def buildSocialLinks (inp : Option SLPayload) (m : Mode) : Option SLDoc :=
  let input := inp.getD {}
  let links : SLDoc :=
    { instagramLink := slAssign m input.instagramLink
      facebookLink := slAssign m input.facebookLink
      youtubeLink := slAssign m input.youtubeLink
      linkedinLink := slAssign m input.linkedinLink }
  if m = Mode.full then some links
  else if links.instagramLink.isNone && links.facebookLink.isNone &&
          links.youtubeLink.isNone && links.linkedinLink.isNone then none
  else some links

/-- Raw request payload for a User as `prepareUserDoc` receives it
(`socialLinks = none` models an undefined key). -/
structure UserPayload where
  profilePhoto : RawVal := .undef
  truvedaLink : RawVal := .undef
  firstName : RawVal := .undef
  lastName : RawVal := .undef
  displayName : RawVal := .undef
  intro : RawVal := .undef
  aboutYourself : RawVal := .undef
  email : RawVal := .undef
  socialLinks : Option SLPayload := none
  isActive : RawBool := .undef
deriving DecidableEq, Repr

/-- The `doc` built by `prepareUserDoc`. -/
structure UserFields where
  profilePhoto : Option String := none
  truvedaLink : Option String := none
  firstName : Option String := none
  lastName : Option String := none
  displayName : Option String := none
  intro : Option String := none
  aboutYourself : Option String := none
  email : Option String := none
  socialLinks : Option SLDoc := none
  isActive : Option Bool := none
deriving DecidableEq, Repr

def profilePhotoOpts : StrOpts := { dflt := some DEFAULT_PROFILE_PHOTO }
def truvedaLinkOpts : StrOpts :=
  { required := true, lower := true, pat := some .truveda,
    patMsg := "truvedaLink may only contain letters, numbers, underscores" }
def firstNameOpts : StrOpts := { required := true, maxLength := some MAX_FIRST_NAME }
def lastNameOpts : StrOpts := { required := true, maxLength := some MAX_LAST_NAME }
def displayNameOpts : StrOpts := { required := true, maxLength := some MAX_DISPLAY_NAME }
def introOpts : StrOpts := { maxLength := some MAX_INTRO, dflt := some "" }
def aboutYourselfOpts : StrOpts := { maxLength := some MAX_ABOUT, dflt := some "" }
def emailOpts : StrOpts :=
  { required := true, lower := true, pat := some .email,
    patMsg := "Please provide a valid email" }

/-- `prepareUserDoc(payload, { partial })`: the eight string fields in
source order, then `socialLinks`, then `isActive` — whose coercion throws
immediately, bypassing the accumulated string-field errors. -/
def prepareUserDoc (p : UserPayload) (m : Mode) :
    Except (List String) UserFields :=
  let r0 := assignResult "profilePhoto" p.profilePhoto profilePhotoOpts m
  let r1 := assignResult "truvedaLink" p.truvedaLink truvedaLinkOpts m
  let r2 := assignResult "firstName" p.firstName firstNameOpts m
  let r3 := assignResult "lastName" p.lastName lastNameOpts m
  let r4 := assignResult "displayName" p.displayName displayNameOpts m
  let r5 := assignResult "intro" p.intro introOpts m
  let r6 := assignResult "aboutYourself" p.aboutYourself aboutYourselfOpts m
  let r7 := assignResult "email" p.email emailOpts m
  let errors := r0.2 ++ r1.2 ++ r2.2 ++ r3.2 ++ r4.2 ++ r5.2 ++ r6.2 ++ r7.2
  let slBuilt := buildSocialLinks p.socialLinks m
  let slDoc : Option SLDoc :=
    match slBuilt with
    | some l => some l
    | none => if m = Mode.full then some defaultSLDoc else none
  let finish : Option Bool → Except (List String) UserFields := fun act =>
    if errors.isEmpty then
      .ok { profilePhoto := r0.1, truvedaLink := r1.1, firstName := r2.1,
            lastName := r3.1, displayName := r4.1, intro := r5.1,
            aboutYourself := r6.1, email := r7.1, socialLinks := slDoc,
            isActive := act }
    else .error errors
  if p.isActive ≠ RawBool.undef || m = Mode.full then
    match coerceBoolean p.isActive true with
    | .error msg => .error [msg]
    | .ok b => finish (some b)
  else
    finish none

/-- `Object.keys(updates).length === 0` on a prepared User doc. -/
def UserFields.isEmptyDoc (u : UserFields) : Bool :=
  u.profilePhoto.isNone && u.truvedaLink.isNone && u.firstName.isNone &&
  u.lastName.isNone && u.displayName.isNone && u.intro.isNone &&
  u.aboutYourself.isNone && u.email.isNone && u.socialLinks.isNone &&
  u.isActive.isNone

/-- One stored User document. -/
structure UserRecord where
  rid : Nat
  fields : UserFields
  createdAt : Nat
  updatedAt : Nat
deriving DecidableEq, Repr

/-- The `fullName` virtual: nonempty name parts joined with a space. -/
def fullNameOf (f : UserFields) : String :=
  jsTrim (String.intercalate " "
    ([f.firstName.getD "", f.lastName.getD ""].filter (·.length != 0)))

/-- `applyVirtuals(doc)` on a present document: the record plus its
computed `fullName`. -/
structure UserView where
  record : UserRecord
  fullName : String
deriving DecidableEq, Repr

def applyVirtuals (r : UserRecord) : UserView :=
  { record := r, fullName := fullNameOf r.fields }

/-- The unique-index check `ensureUserIndexes` installs: an insert whose
`email` or `truvedaLink` is already stored fails with `E11000`. -/
def userInsertOne (store : List UserRecord) (r : UserRecord) :
    Except AppErr (List UserRecord) :=
  if store.any (fun x => x.fields.email = r.fields.email) then
    .error (.duplicateKey "email")
  else if store.any (fun x => x.fields.truvedaLink = r.fields.truvedaLink) then
    .error (.duplicateKey "truvedaLink")
  else .ok (store ++ [r])

/-- `createUser(data)`: prepare in full mode, stamp both timestamps with
one `new Date()`, insert under the unique indexes, return with virtuals. -/
def createUser (store : List UserRecord) (data : UserPayload)
    (now newId : Nat) : Except AppErr (UserView × List UserRecord) :=
  match prepareUserDoc data .full with
  | .error es => .error (.validation (joinErrs es))
  | .ok doc =>
    let r : UserRecord := { rid := newId, fields := doc, createdAt := now, updatedAt := now }
    match userInsertOne store r with
    | .error e => .error e
    | .ok store' => .ok (applyVirtuals r, store')

/-- `findUserByEmail(email)`: normalize (trim + lower-case), return `null`
for a falsy result, otherwise `findOne({ email })`. -/
def findUserByEmail (store : List UserRecord) (email : RawVal) :
    Option UserView :=
  let normalized := sanitizeString email { lower := true }
  if !(truthy normalized) then none
  else (store.find? fun r => r.fields.email = normalized).map applyVirtuals

/-- `findUserByTruvedaLink(link)`, same shape as the email lookup. -/
def findUserByTruvedaLink (store : List UserRecord) (link : RawVal) :
    Option UserView :=
  let normalized := sanitizeString link { lower := true }
  if !(truthy normalized) then none
  else (store.find? fun r => r.fields.truvedaLink = normalized).map applyVirtuals

/-- Effect of the `$set` in `updateUser` on one matched User record
(`socialLinks` and `isActive` are whole-value keys like the strings). -/
def applyUserUpdates (r : UserRecord) (u : UserFields) (now : Nat) :
    UserRecord :=
  { r with
    updatedAt := now
    fields := {
      profilePhoto := setField u.profilePhoto r.fields.profilePhoto
      truvedaLink := setField u.truvedaLink r.fields.truvedaLink
      firstName := setField u.firstName r.fields.firstName
      lastName := setField u.lastName r.fields.lastName
      displayName := setField u.displayName r.fields.displayName
      intro := setField u.intro r.fields.intro
      aboutYourself := setField u.aboutYourself r.fields.aboutYourself
      email := setField u.email r.fields.email
      socialLinks := match u.socialLinks with
        | some sl => some sl
        | none => r.fields.socialLinks
      isActive := match u.isActive with
        | some b => some b
        | none => r.fields.isActive } }

/-- `findOneAndUpdate` for Users, `returnDocument: "after"`. -/
def updateFirstUser (store : List UserRecord) (oid : Nat)
    (f : UserRecord → UserRecord) : Option UserRecord × List UserRecord :=
  match store with
  | [] => (none, [])
  | r :: rest =>
    if r.rid = oid then (some (f r), f r :: rest)
    else
      let rec2 := updateFirstUser rest oid f
      (rec2.1, r :: rec2.2)

/-- `updateUser(id, data)`: prepare in partial mode, reject an empty update
doc, stamp `updatedAt`, `findOneAndUpdate`, and apply virtuals to the
result — which stays `none` when nothing matched. -/
def updateUser (store : List UserRecord) (id : String) (data : UserPayload)
    (now : Nat) : Except AppErr (Option UserView × List UserRecord) :=
  match prepareUserDoc data .part with
  | .error es => .error (.validation (joinErrs es))
  | .ok updates =>
    if updates.isEmptyDoc then
      .error (.validation "At least one field must be provided to update")
    else
      match toObjectId "Invalid user id" id with
      | .error e => .error e
      | .ok oid =>
        let rec2 := updateFirstUser store oid (applyUserUpdates · updates now)
        .ok (rec2.1.map applyVirtuals, rec2.2)

/-- `findOneAndDelete` for Users. -/
def removeFirstUser (store : List UserRecord) (oid : Nat) :
    Option UserRecord × List UserRecord :=
  match store with
  | [] => (none, [])
  | r :: rest =>
    if r.rid = oid then (some r, rest)
    else
      let rec2 := removeFirstUser rest oid
      (rec2.1, r :: rec2.2)

/-- `deleteUser(id)`: validate, `findOneAndDelete`, throw a
`ValidationError` reading "User not found" when nothing matched. -/
def deleteUser (store : List UserRecord) (id : String) :
    Except AppErr (UserView × List UserRecord) :=
  match toObjectId "Invalid user id" id with
  | .error e => .error e
  | .ok oid =>
    match removeFirstUser store oid with
    | (none, _) => .error (.validation "User not found")
    | (some r, store') => .ok (applyVirtuals r, store')

/-- The `$or` filter built by `listUsers`: empty search matches all,
otherwise one of the five text fields contains the trimmed term. -/
def userQueryMatches (search : String) (r : UserRecord) : Bool :=
  let t := jsTrim search
  if t.length = 0 then true
  else
    fieldMatches r.fields.firstName t || fieldMatches r.fields.lastName t ||
    fieldMatches r.fields.displayName t || fieldMatches r.fields.email t ||
    fieldMatches r.fields.truvedaLink t

/-- `listUsers({ page, limit, search })`, the same pipeline as
`listServices` over the user text fields, with virtuals applied to the
page. -/
def listUsers (store : List UserRecord) (page limit : QVal)
    (search : String) : ListResult UserView :=
  let pageNumber := effectivePage page
  let limitNumber := effectiveLimit limit
  let skip := ((pageNumber - 1) * limitNumber).toNat
  let matching := store.filter (userQueryMatches search)
  let records := ((sortDescBy UserRecord.createdAt matching).drop skip).take limitNumber.toNat
  let total := matching.length
  { data := records.map applyVirtuals
    total := total
    totalPages := totalPagesOf total limitNumber.toNat
    page := pageNumber
    limit := limitNumber }

/-! ### Controllers, uploads and the filesystem
(`controllers/serviceController.js`, the user controller, `upload.js`) -/

/-- An HTTP response as the handlers produce it: a status code and the
`message` of the JSON body (empty for the 204 delete response). -/
structure HttpResponse where
  status : Nat
  message : String := ""
deriving DecidableEq, Repr

/-- `respondWithError` of `serviceController.js`: a `ValidationError` is a
400, everything else the 500 fallback (no duplicate-key branch there). -/
def serviceRespondWithError (e : AppErr) (fallback : String) : HttpResponse :=
  match e with
  | .validation msg => { status := 400, message := msg }
  | _ => { status := 500, message := fallback }

/-- `respondWithError` of the user controller: a `ValidationError` is a
400, a driver `E11000` a 409 naming the field, else the 500 fallback. -/
def userRespondWithError (e : AppErr) (fallback : String) : HttpResponse :=
  match e with
  | .validation msg => { status := 400, message := msg }
  | .duplicateKey f =>
    { status := 409, message := "Duplicate value for field(s): " ++ f }
  | .unexpected => { status := 500, message := fallback }

/-- Model of `path.resolve(__dirname, "..")`, the controllers' uploads
root. -/
def uploadsRoot : String := "/srv/user-profile-crud"

/-- `resolveUploadPath(reference)`: `null` for a falsy reference, an
absolute path unchanged, a relative one resolved under the uploads root
(POSIX: absolute iff it starts with a slash). -/
def resolveUploadPath (ref : String) : Option String :=
  if ref.length = 0 then none
  else if jsStartsWith ref "/" then some ref
  else some (uploadsRoot ++ "/" ++ ref)

/-- An `fs.unlink` failure; the model's unlink only produces `enoent`, the
`other` constructor stands for the remaining error codes the catch block
distinguishes. -/
inductive FsErr where
  | enoent
  | other
deriving DecidableEq, Repr

/-- `fs.unlink(target)` over a filesystem modeled as the list of existing
paths. -/
def unlink (fs : List String) (target : String) : Except FsErr (List String) :=
  if fs.contains target then .ok (fs.filter (fun p => p ≠ target))
  else .error .enoent

/-- `deleteFileIfExists(reference)` of a controller with default-photo
suffix `sfx`: resolve, skip falsy or default targets, unlink, swallow
`ENOENT`, and only warn (second component) on other codes — the `Except`
layer records that no failure escapes the catch. -/
def deleteFileIfExists (fs : List String) (ref : Option String)
    (sfx : String) : Except FsErr (List String × Bool) :=
  match ref with
  | none => .ok (fs, false)
  | some r =>
    match resolveUploadPath r with
    | none => .ok (fs, false)
    | some target =>
      if jsEndsWith target sfx then .ok (fs, false)
      else
        match unlink fs target with
        | .ok fs' => .ok (fs', false)
        | .error e => if e = FsErr.enoent then .ok (fs, false) else .ok (fs, true)

/-- The filesystem after `deleteFileIfExists` (it always returns). -/
def runDeleteFile (fs : List String) (ref : Option String) (sfx : String) :
    List String :=
  match deleteFileIfExists fs ref sfx with
  | .ok (fs', _) => fs'
  | .error _ => fs

/-- `cleanupOnError(filePath)`: delete only when a path was recorded. -/
def cleanupOnError (fs : List String) (uploadedPath : Option String)
    (sfx : String) : List String :=
  match uploadedPath with
  | none => fs
  | some p => if p.length = 0 then fs else runDeleteFile fs (some p) sfx

/-- A file multer already wrote before the handler ran: its disk path
(`req.file.path`) and generated name (`req.file.filename`). -/
structure UploadedFile where
  path : String
  filename : String
deriving DecidableEq, Repr

/-- `buildPayload(body, servicePhoto)` of the service controller: override
the photo field only when a truthy reference was built. -/
def serviceBuildPayload (b : ServicePayload) (photo : Option String) :
    ServicePayload :=
  match photo with
  | some p => if p.length != 0 then { b with servicePhoto := .str p } else b
  | none => b

/-- `updateService` request handler: look up the target, run the model
update, clean the uploaded file on every failure path, and delete a
replaced non-default photo only after the update succeeded. -/
def serviceUpdateHandler (store : List ServiceRecord) (fs : List String)
    (id : String) (body : ServicePayload) (file : Option UploadedFile)
    (now : Nat) : HttpResponse × List ServiceRecord × List String :=
  let uploadedPath := file.map (·.path)
  let clean := fun () => cleanupOnError fs uploadedPath "default-service.png"
  match findServiceById store id with
  | .error e => (serviceRespondWithError e "Failed to update service", store, clean ())
  | .ok none => ({ status := 404, message := "Service not found" }, store, clean ())
  | .ok (some service) =>
    let servicePhoto := file.map (fun f => "/uploads/" ++ f.filename)
    match updateService store id (serviceBuildPayload body servicePhoto) now with
    | .error e => (serviceRespondWithError e "Failed to update service", store, clean ())
    | .ok (none, store') =>
      ({ status := 404, message := "Service not found" }, store', clean ())
    | .ok (some _, store') =>
      let fs' :=
        if servicePhoto.isSome && truthy service.fields.servicePhoto &&
            service.fields.servicePhoto ≠ some DEFAULT_SERVICE_PHOTO then
          runDeleteFile fs service.fields.servicePhoto "default-service.png"
        else fs
      ({ status := 200, message := "Service updated successfully" }, store', fs')

/-- `deleteService` request handler: run the model delete, then delete a
non-default photo file; 204 on success, `respondWithError` otherwise. -/
def serviceDeleteHandler (store : List ServiceRecord) (fs : List String)
    (id : String) : HttpResponse × List ServiceRecord × List String :=
  match deleteService store id with
  | .error e => (serviceRespondWithError e "Failed to delete service", store, fs)
  | .ok (deleted, store') =>
    let fs' :=
      if truthy deleted.fields.servicePhoto &&
          deleted.fields.servicePhoto ≠ some DEFAULT_SERVICE_PHOTO then
        runDeleteFile fs deleted.fields.servicePhoto "default-service.png"
      else fs
    ({ status := 204 }, store', fs')

/-- The raw `socialLinks` body value of a user request before
`parseSocialLinksInput`: absent/falsy, an object, a JSON string encoding
an object, a string that does not, or an array/other value. -/
inductive SLRaw where
  | undef
  | obj (p : SLPayload)
  | goodStr (p : SLPayload)
  | badStr
  | arrOrOther
deriving DecidableEq, Repr

/-- `parseSocialLinksInput(value)`: undefined passes through, objects and
object-JSON strings parse, anything else throws a `ValidationError`. -/
def parseSocialLinksInput (v : SLRaw) : Except AppErr (Option SLPayload) :=
  match v with
  | .undef => .ok none
  | .obj p => .ok (some p)
  | .goodStr p => .ok (some p)
  | .badStr => .error (.validation "socialLinks must be a valid JSON object string")
  | .arrOrOther => .error (.validation "socialLinks must be a valid object")

/-- A user request body: the string fields, the raw socialLinks value, and
the raw isActive value. -/
structure UserReqBody where
  profilePhoto : RawVal := .undef
  truvedaLink : RawVal := .undef
  firstName : RawVal := .undef
  lastName : RawVal := .undef
  displayName : RawVal := .undef
  intro : RawVal := .undef
  aboutYourself : RawVal := .undef
  email : RawVal := .undef
  socialLinksRaw : SLRaw := .undef
  isActive : RawBool := .undef
deriving DecidableEq, Repr

/-- `buildPayload(body, profilePhoto, socialLinksOverride)` of the user
controller: drop the raw socialLinks key, override the photo when truthy,
and install the parsed socialLinks override. -/
def userBuildPayload (b : UserReqBody) (photo : Option String)
    (sl : Option SLPayload) : UserPayload :=
  { profilePhoto :=
      match photo with
      | some p => if p.length != 0 then .str p else b.profilePhoto
      | none => b.profilePhoto
    truvedaLink := b.truvedaLink
    firstName := b.firstName
    lastName := b.lastName
    displayName := b.displayName
    intro := b.intro
    aboutYourself := b.aboutYourself
    email := b.email
    socialLinks := sl
    isActive := b.isActive }

/-- `createUser` request handler: parse socialLinks, pre-check email and
link uniqueness, build the payload with the uploaded or default photo,
create, and clean the uploaded file on every failure path. -/
def userCreateHandler (store : List UserRecord) (fs : List String)
    (body : UserReqBody) (file : Option UploadedFile) (now newId : Nat) :
    HttpResponse × List UserRecord × List String :=
  let uploadedPath := file.map (·.path)
  let clean := fun () => cleanupOnError fs uploadedPath "default-avatar.png"
  match parseSocialLinksInput body.socialLinksRaw with
  | .error e => (userRespondWithError e "Failed to create user", store, clean ())
  | .ok sl =>
    match findUserByEmail store body.email with
    | some _ => ({ status := 409, message := "Email already exists" }, store, clean ())
    | none =>
      match findUserByTruvedaLink store body.truvedaLink with
      | some _ =>
        ({ status := 409, message := "truvedaLink already exists" }, store, clean ())
      | none =>
        let profilePhoto :=
          match file with
          | some f => "/uploads/" ++ f.filename
          | none => DEFAULT_PROFILE_PHOTO
        match createUser store (userBuildPayload body (some profilePhoto) sl) now newId with
        | .error e => (userRespondWithError e "Failed to create user", store, clean ())
        | .ok (_, store') =>
          ({ status := 201, message := "User created successfully" }, store', fs)

/-! ### Helper lemmas about the sanitizer -/

/-- The violated-rule messages of one field, stated rule by rule: length
and pattern violations on a truthy value, the required rule on a missing
one in full mode. -/
def fieldViolations (f : String) (raw : RawVal) (o : StrOpts) (m : Mode) :
    List String :=
  if truthy (sanitizeString raw o) then
    lengthPatternErrs f ((sanitizeString raw o).getD "") o
  else if o.required && m = Mode.full then [f ++ " is required"]
  else []

theorem assign_truthy (f : String) (raw : RawVal) (o : StrOpts) (m : Mode)
    (h : truthy (sanitizeString raw o) = true) :
    assignResult f raw o m =
      (sanitizeString raw o, lengthPatternErrs f ((sanitizeString raw o).getD "") o) := by
  unfold assignResult
  simp [h]

theorem assign_falsy_full_required (f : String) (raw : RawVal) (o : StrOpts)
    (h : truthy (sanitizeString raw o) = false) (hreq : o.required = true) :
    assignResult f raw o Mode.full = (none, [f ++ " is required"]) := by
  unfold assignResult
  simp [h, hreq]

theorem assign_falsy_full_optional (f : String) (raw : RawVal) (o : StrOpts)
    (h : truthy (sanitizeString raw o) = false) (hreq : o.required = false) :
    assignResult f raw o Mode.full = (o.dflt, []) := by
  unfold assignResult
  cases hd : o.dflt <;> simp [h, hreq, hd]

theorem assign_falsy_part (f : String) (raw : RawVal) (o : StrOpts)
    (h : truthy (sanitizeString raw o) = false) :
    assignResult f raw o Mode.part = (none, []) := by
  unfold assignResult
  simp [h]

theorem assign_errs_eq (f : String) (raw : RawVal) (o : StrOpts) (m : Mode) :
    (assignResult f raw o m).2 = fieldViolations f raw o m := by
  unfold fieldViolations
  cases ht : truthy (sanitizeString raw o)
  · cases m
    · cases hreq : o.required
      · rw [assign_falsy_full_optional f raw o ht hreq]; simp [hreq]
      · rw [assign_falsy_full_required f raw o ht hreq]; simp [hreq]
    · rw [assign_falsy_part f raw o ht]; simp
  · rw [assign_truthy f raw o m ht]; simp

/-- All violated-rule messages of a Service payload, in the field order of
`prepareServiceDoc`. -/
def serviceViolations (p : ServicePayload) (m : Mode) : List String :=
  fieldViolations "servicePhoto" p.servicePhoto servicePhotoOpts m ++
  fieldViolations "serviceName" p.serviceName serviceNameOpts m ++
  fieldViolations "shortDescription" p.shortDescription shortDescriptionOpts m ++
  fieldViolations "content" p.content contentOpts m ++
  fieldViolations "price" p.price priceOpts m ++
  fieldViolations "strikerPrice" p.strikerPrice strikerPriceOpts m

/-- The doc `prepareServiceDoc` would return, field by field. -/
def serviceDocOf (p : ServicePayload) (m : Mode) : ServiceFields :=
  { servicePhoto := (assignResult "servicePhoto" p.servicePhoto servicePhotoOpts m).1
    serviceName := (assignResult "serviceName" p.serviceName serviceNameOpts m).1
    shortDescription := (assignResult "shortDescription" p.shortDescription shortDescriptionOpts m).1
    content := (assignResult "content" p.content contentOpts m).1
    price := (assignResult "price" p.price priceOpts m).1
    strikerPrice := (assignResult "strikerPrice" p.strikerPrice strikerPriceOpts m).1 }

theorem prepareServiceDoc_eq (p : ServicePayload) (m : Mode) :
    prepareServiceDoc p m =
      if (serviceViolations p m).isEmpty then .ok (serviceDocOf p m)
      else .error (serviceViolations p m) := by
  unfold prepareServiceDoc serviceViolations serviceDocOf
  simp only [assign_errs_eq]

/-- All violated string-field rule messages of a User payload, in the field
order of `prepareUserDoc`. -/
def userViolations (p : UserPayload) (m : Mode) : List String :=
  fieldViolations "profilePhoto" p.profilePhoto profilePhotoOpts m ++
  fieldViolations "truvedaLink" p.truvedaLink truvedaLinkOpts m ++
  fieldViolations "firstName" p.firstName firstNameOpts m ++
  fieldViolations "lastName" p.lastName lastNameOpts m ++
  fieldViolations "displayName" p.displayName displayNameOpts m ++
  fieldViolations "intro" p.intro introOpts m ++
  fieldViolations "aboutYourself" p.aboutYourself aboutYourselfOpts m ++
  fieldViolations "email" p.email emailOpts m

/-- The `socialLinks` value `prepareUserDoc` stores. -/
def slDocOf (p : UserPayload) (m : Mode) : Option SLDoc :=
  match buildSocialLinks p.socialLinks m with
  | some l => some l
  | none => if m = Mode.full then some defaultSLDoc else none

/-- The doc `prepareUserDoc` would return for a given `isActive` result. -/
def userDocOf (p : UserPayload) (m : Mode) (act : Option Bool) : UserFields :=
  { profilePhoto := (assignResult "profilePhoto" p.profilePhoto profilePhotoOpts m).1
    truvedaLink := (assignResult "truvedaLink" p.truvedaLink truvedaLinkOpts m).1
    firstName := (assignResult "firstName" p.firstName firstNameOpts m).1
    lastName := (assignResult "lastName" p.lastName lastNameOpts m).1
    displayName := (assignResult "displayName" p.displayName displayNameOpts m).1
    intro := (assignResult "intro" p.intro introOpts m).1
    aboutYourself := (assignResult "aboutYourself" p.aboutYourself aboutYourselfOpts m).1
    email := (assignResult "email" p.email emailOpts m).1
    socialLinks := slDocOf p m
    isActive := act }

theorem prepareUserDoc_eq (p : UserPayload) (m : Mode) :
    prepareUserDoc p m =
      if p.isActive ≠ RawBool.undef || m = Mode.full then
        match coerceBoolean p.isActive true with
        | .error msg => .error [msg]
        | .ok b =>
          if (userViolations p m).isEmpty then .ok (userDocOf p m (some b))
          else .error (userViolations p m)
      else
        if (userViolations p m).isEmpty then .ok (userDocOf p m none)
        else .error (userViolations p m) := by
  unfold prepareUserDoc userViolations userDocOf slDocOf
  simp only [assign_errs_eq]

/-! ### Helper lemmas about the store operations -/

theorem toObjectId_valid (msg id : String)
    (h : isValidObjectId (jsTrim id) = true) :
    toObjectId msg id = .ok (objectIdVal (jsTrim id)) := by
  have hlen : (jsTrim id).length = 24 := by
    have h2 := h
    simp [isValidObjectId] at h2
    exact h2.1
  unfold toObjectId
  simp [h, hlen]

theorem updateFirstService_none (store : List ServiceRecord) (oid : Nat)
    (g : ServiceRecord → ServiceRecord) (h : ∀ r ∈ store, r.rid ≠ oid) :
    updateFirstService store oid g = (none, store) := by
  induction store with
  | nil => rfl
  | cons r rest ih =>
    unfold updateFirstService
    rw [if_neg (h r (by simp))]
    rw [ih (fun x hx => h x (by simp [hx]))]

theorem updateFirstService_found (store : List ServiceRecord) (oid : Nat)
    (g : ServiceRecord → ServiceRecord) (r : ServiceRecord)
    (h : store.find? (fun x => x.rid = oid) = some r) :
    (updateFirstService store oid g).1 = some (g r) := by
  induction store with
  | nil => simp [List.find?] at h
  | cons x rest ih =>
    by_cases hx : x.rid = oid
    · have hxr : x = r := by simp [List.find?, hx] at h; exact h
      subst hxr
      unfold updateFirstService
      rw [if_pos hx]
    · have h' : rest.find? (fun y => y.rid = oid) = some r := by
        simpa [List.find?, hx] using h
      unfold updateFirstService
      rw [if_neg hx]
      exact ih h'

theorem removeFirstService_none (store : List ServiceRecord) (oid : Nat)
    (h : ∀ r ∈ store, r.rid ≠ oid) :
    removeFirstService store oid = (none, store) := by
  induction store with
  | nil => rfl
  | cons r rest ih =>
    unfold removeFirstService
    rw [if_neg (h r (by simp))]
    rw [ih (fun x hx => h x (by simp [hx]))]

theorem updateFirstUser_none (store : List UserRecord) (oid : Nat)
    (g : UserRecord → UserRecord) (h : ∀ r ∈ store, r.rid ≠ oid) :
    updateFirstUser store oid g = (none, store) := by
  induction store with
  | nil => rfl
  | cons r rest ih =>
    unfold updateFirstUser
    rw [if_neg (h r (by simp))]
    rw [ih (fun x hx => h x (by simp [hx]))]

theorem updateFirstUser_found (store : List UserRecord) (oid : Nat)
    (g : UserRecord → UserRecord) (r : UserRecord)
    (h : store.find? (fun x => x.rid = oid) = some r) :
    (updateFirstUser store oid g).1 = some (g r) := by
  induction store with
  | nil => simp [List.find?] at h
  | cons x rest ih =>
    by_cases hx : x.rid = oid
    · have hxr : x = r := by simp [List.find?, hx] at h; exact h
      subst hxr
      unfold updateFirstUser
      rw [if_pos hx]
    · have h' : rest.find? (fun y => y.rid = oid) = some r := by
        simpa [List.find?, hx] using h
      unfold updateFirstUser
      rw [if_neg hx]
      exact ih h'

/-! ### Helper lemmas about the descending sort -/

theorem mem_insertDescBy {α : Type} (key : α → Nat) (r x : α) (l : List α) :
    x ∈ insertDescBy key r l ↔ x = r ∨ x ∈ l := by
  induction l with
  | nil => simp [insertDescBy]
  | cons y ys ih =>
    unfold insertDescBy
    by_cases hy : key y ≤ key r
    · rw [if_pos hy]; simp [or_comm, or_assoc, or_left_comm]
    · rw [if_neg hy]; simp [ih]; tauto

theorem insertDescBy_pairwise {α : Type} (key : α → Nat) (r : α) (l : List α)
    (h : l.Pairwise (fun a b => key b ≤ key a)) :
    (insertDescBy key r l).Pairwise (fun a b => key b ≤ key a) := by
  induction l with
  | nil => simp [insertDescBy]
  | cons x xs ih =>
    unfold insertDescBy
    rcases List.pairwise_cons.mp h with ⟨hx, hxs⟩
    by_cases hle : key x ≤ key r
    · rw [if_pos hle]
      refine List.pairwise_cons.mpr ⟨?_, h⟩
      intro y hy
      rcases List.mem_cons.mp hy with hyx | hymem
      · subst hyx; exact hle
      · exact le_trans (hx y hymem) hle
    · rw [if_neg hle]
      refine List.pairwise_cons.mpr ⟨?_, ih hxs⟩
      intro y hy
      rcases (mem_insertDescBy key r y xs).mp hy with hyr | hy
      · subst hyr; omega
      · exact hx y hy

theorem sortDescBy_pairwise {α : Type} (key : α → Nat) (l : List α) :
    (sortDescBy key l).Pairwise (fun a b => key b ≤ key a) := by
  induction l with
  | nil => simp [sortDescBy]
  | cons x xs ih => exact insertDescBy_pairwise key x _ ih

/-! ### Claim C1 -/

/-- C1 counterexample: deleting a well-formed id with no stored record
returns HTTP 400, not the 404 the claim requires — `deleteService` throws
a `ValidationError` reading "Service not found" and `respondWithError`
maps every `ValidationError` to 400. -/
theorem c1_delete_missing_counterexample :
    (serviceDeleteHandler [] [] "aaaaaaaaaaaaaaaaaaaaaaaa").1.status = 400 ∧
    isValidObjectId (jsTrim "aaaaaaaaaaaaaaaaaaaaaaaa") = true ∧
    (serviceDeleteHandler [] [] "aaaaaaaaaaaaaaaaaaaaaaaa").1.status ≠ 404 := by
  refine ⟨by decide, by decide, by decide⟩

/-- C1 (amended): for every delete request whose well-formed id matches no
stored record, the handler responds with status 400 and message "Service
not found" (the model surfaces not-found as a `ValidationError`, which the
controller maps to 400, not 404), leaving store and filesystem
untouched. -/
theorem c1_delete_missing_is_400 (store : List ServiceRecord)
    (fs : List String) (id : String)
    (hv : isValidObjectId (jsTrim id) = true)
    (hm : ∀ r ∈ store, r.rid ≠ objectIdVal (jsTrim id)) :
    serviceDeleteHandler store fs id =
      ({ status := 400, message := "Service not found" }, store, fs) := by
  unfold serviceDeleteHandler deleteService
  simp [toObjectId_valid _ _ hv, removeFirstService_none store _ hm,
    serviceRespondWithError]

/-- Witness for C1's amended theorem at a concrete well-formed id and
empty store. -/
theorem c1_delete_missing_is_400_witness :
    serviceDeleteHandler [] [] "0123456789abcdef01234567" =
      ({ status := 400, message := "Service not found" }, [], []) :=
  c1_delete_missing_is_400 [] [] "0123456789abcdef01234567" (by decide)
    (by intro r hr; simp at hr)

/-! ### Claim C2 -/

/-- C2 counterexample: `updateService` on a well-formed id with no matching
record and a nonempty partial input does not fail — it returns a `null`
(`none`) updated record. -/
theorem c2_update_missing_counterexample :
    updateService [] "aaaaaaaaaaaaaaaaaaaaaaaa" { serviceName := .str "X" } 5 =
      .ok (none, []) ∧
    isValidObjectId (jsTrim "aaaaaaaaaaaaaaaaaaaaaaaa") = true := by
  refine ⟨by decide, by decide⟩

/-- C2 (amended): `updateService`/`updateUser` fail with the
"At least one field must be provided to update" `ValidationError` whenever
the sanitized partial input contains no fields (for every id, even a
malformed one); but on a well-formed id with no matching record and a
nonempty sanitized input they do not fail: they return a `null` record
(which the controllers translate to a 404 response) and leave the store
unchanged. -/
theorem c2_update_no_fields_fails_missing_target_null :
    (∀ (store : List ServiceRecord) (id : String) (data : ServicePayload)
        (now : Nat) (u : ServiceFields),
      prepareServiceDoc data .part = .ok u → u.isEmptyDoc = true →
      updateService store id data now =
        .error (.validation "At least one field must be provided to update")) ∧
    (∀ (store : List ServiceRecord) (id : String) (data : ServicePayload)
        (now : Nat) (u : ServiceFields),
      isValidObjectId (jsTrim id) = true →
      (∀ r ∈ store, r.rid ≠ objectIdVal (jsTrim id)) →
      prepareServiceDoc data .part = .ok u → u.isEmptyDoc = false →
      updateService store id data now = .ok (none, store)) ∧
    (∀ (store : List UserRecord) (id : String) (data : UserPayload)
        (now : Nat) (u : UserFields),
      prepareUserDoc data .part = .ok u → u.isEmptyDoc = true →
      updateUser store id data now =
        .error (.validation "At least one field must be provided to update")) ∧
    (∀ (store : List UserRecord) (id : String) (data : UserPayload)
        (now : Nat) (u : UserFields),
      isValidObjectId (jsTrim id) = true →
      (∀ r ∈ store, r.rid ≠ objectIdVal (jsTrim id)) →
      prepareUserDoc data .part = .ok u → u.isEmptyDoc = false →
      updateUser store id data now = .ok (none, store)) := by
  refine ⟨?_, ?_, ?_, ?_⟩
  · intro store id data now u hprep hempty
    unfold updateService
    rw [hprep]
    simp [hempty]
  · intro store id data now u hv hm hprep hne
    unfold updateService
    rw [hprep]
    simp only [hne, toObjectId_valid _ _ hv,
      updateFirstService_none store _ _ hm]
    simp
  · intro store id data now u hprep hempty
    unfold updateUser
    rw [hprep]
    simp [hempty]
  · intro store id data now u hv hm hprep hne
    unfold updateUser
    rw [hprep]
    simp only [hne, toObjectId_valid _ _ hv,
      updateFirstUser_none store _ _ hm]
    simp

/-- Witness for C2's amended theorem: the empty-update failure on an empty
partial payload, and the `null` result on a well-formed unmatched id. -/
theorem c2_update_witness :
    updateService [] "ffffffffffffffffffffffff" {} 7 =
      .error (.validation "At least one field must be provided to update") ∧
    updateService [] "ffffffffffffffffffffffff" { price := .str "5" } 7 =
      .ok (none, []) := by
  constructor
  · exact c2_update_no_fields_fails_missing_target_null.1 [] _ {} 7 {}
      (by decide) (by decide)
  · exact c2_update_no_fields_fails_missing_target_null.2.1 [] _ _ 7
      { price := some "5" } (by decide) (by intro r hr; simp at hr)
      (by decide) (by decide)

/-! ### Claim C10 -/

/-- A raw value that is absent, null, or trims to the empty string
sanitizes to a falsy result (for a trimming field schema). -/
theorem falsy_sanitize (raw : RawVal) (o : StrOpts) (htrim : o.trim = true)
    (h : raw = .undef ∨ raw = .null ∨ ∃ s, raw = .str s ∧ jsTrim s = "") :
    truthy (sanitizeString raw o) = false := by
  rcases h with h | h | ⟨s, hs, hempty⟩
  · subst h; rfl
  · subst h; rfl
  · subst hs
    simp [sanitizeString, htrim, hempty, truthy]

/-- C10: in partial mode a field whose supplied value is absent, null, or
trims to the empty string is omitted from the update doc entirely (no
value, no error), so a partial update leaves the stored value of that
field unchanged rather than clearing it — shown for the shared
`assignStringField` under any trimming schema, and end to end for
`updateService` on the `serviceName` field. -/
theorem c10_partial_falsy_field_omitted :
    (∀ (f : String) (raw : RawVal) (o : StrOpts),
      o.trim = true →
      (raw = .undef ∨ raw = .null ∨ ∃ s, raw = .str s ∧ jsTrim s = "") →
      assignResult f raw o .part = (none, [])) ∧
    (∀ (store : List ServiceRecord) (id : String) (data : ServicePayload)
        (now : Nat) (rec res : ServiceRecord) (store' : List ServiceRecord),
      store.find? (fun x => x.rid = objectIdVal (jsTrim id)) = some rec →
      (data.serviceName = .undef ∨ data.serviceName = .null ∨
        ∃ s, data.serviceName = .str s ∧ jsTrim s = "") →
      updateService store id data now = .ok (some res, store') →
      res.fields.serviceName = rec.fields.serviceName) := by
  constructor
  · intro f raw o htrim hfalsy
    exact assign_falsy_part f raw o (falsy_sanitize raw o htrim hfalsy)
  · intro store id data now rec res store' hfind hfalsy hupd
    unfold updateService at hupd
    rw [prepareServiceDoc_eq] at hupd
    by_cases hv : (serviceViolations data .part).isEmpty = true
    · rw [if_pos hv] at hupd
      simp only [] at hupd
      by_cases he : (serviceDocOf data .part).isEmptyDoc = true
      · rw [if_pos he] at hupd; cases hupd
      · rw [if_neg he] at hupd
        cases ht : toObjectId "Invalid service id" id with
        | error e => rw [ht] at hupd; cases hupd
        | ok oid =>
          rw [ht] at hupd
          have hoid : oid = objectIdVal (jsTrim id) := by
            unfold toObjectId at ht
            by_cases hc : ((jsTrim id).length != 0 && isValidObjectId (jsTrim id)) = true
            · rw [if_pos hc] at ht
              injection ht with h2
              exact h2.symm
            · rw [if_neg hc] at ht; cases ht
          subst hoid
          have hpair : updateFirstService store (objectIdVal (jsTrim id))
              (applyServiceUpdates · (serviceDocOf data .part) now) =
              (some res, store') := by
            injection hupd
          have h1 := updateFirstService_found store (objectIdVal (jsTrim id))
            (applyServiceUpdates · (serviceDocOf data .part) now) rec hfind
          rw [hpair] at h1
          have hres : res = applyServiceUpdates rec (serviceDocOf data .part) now :=
            Option.some.inj h1
          subst hres
          have hnone : (serviceDocOf data .part).serviceName = none := by
            show (assignResult "serviceName" data.serviceName serviceNameOpts .part).1 = none
            rw [assign_falsy_part _ _ _ (falsy_sanitize _ _ rfl hfalsy)]
          show setField (serviceDocOf data .part).serviceName rec.fields.serviceName =
            rec.fields.serviceName
          rw [hnone]
          rfl
    · rw [if_neg hv] at hupd; cases hupd

/-- Witness for C10 at concrete inputs: an explicit null field in partial
mode is dropped, and an update supplying only a new price leaves the
stored serviceName untouched. -/
theorem c10_witness :
    assignResult "serviceName" RawVal.null serviceNameOpts .part = (none, []) ∧
    ({ rid := 1, fields := { serviceName := some "Yoga", price := some "5" },
       createdAt := 0, updatedAt := 9 } : ServiceRecord).fields.serviceName =
      ({ rid := 1, fields := { serviceName := some "Yoga", price := some "1" },
         createdAt := 0, updatedAt := 0 } : ServiceRecord).fields.serviceName :=
  ⟨c10_partial_falsy_field_omitted.1 "serviceName" RawVal.null serviceNameOpts
      rfl (Or.inr (Or.inl rfl)),
   c10_partial_falsy_field_omitted.2
      [{ rid := 1, fields := { serviceName := some "Yoga", price := some "1" },
         createdAt := 0, updatedAt := 0 }]
      "000000000000000000000001" { price := .str "5" } 9
      { rid := 1, fields := { serviceName := some "Yoga", price := some "1" },
        createdAt := 0, updatedAt := 0 }
      { rid := 1, fields := { serviceName := some "Yoga", price := some "5" },
        createdAt := 0, updatedAt := 9 }
      [{ rid := 1, fields := { serviceName := some "Yoga", price := some "5" },
         createdAt := 0, updatedAt := 9 }]
      (by decide) (Or.inl rfl) (by decide)⟩

/-! ### Claim C4 -/

/-- C4 counterexample: a raw User input that violates both the
`firstName is required` rule and the `isActive` boolean rule fails with a
message naming only the `isActive` rule — `coerceBoolean` throws at once,
discarding the accumulated string-field errors, so the failure does not
list every violated rule. -/
theorem c4_counterexample :
    prepareUserDoc { isActive := .str "banana" } .full =
      .error ["isActive must be a boolean value"] ∧
    fieldViolations "firstName" RawVal.undef firstNameOpts .full =
      ["firstName is required"] ∧
    "firstName is required" ∉ (["isActive must be a boolean value"] : List String) := by
  refine ⟨by decide, by decide, by decide⟩

/-- C4 (amended): the string-field sanitizers never short-circuit — when
`prepareServiceDoc` fails it reports exactly the list of all violated
string-field rules, and so does `prepareUserDoc` whenever its `isActive`
coercion succeeds; but an invalid `isActive` value makes `prepareUserDoc`
fail immediately with only the isActive message, dropping any accumulated
string-field errors. -/
theorem c4_all_violations_reported :
    (∀ (p : ServicePayload) (m : Mode),
      serviceViolations p m ≠ [] →
      prepareServiceDoc p m = .error (serviceViolations p m)) ∧
    (∀ (p : UserPayload) (m : Mode) (b : Bool),
      coerceBoolean p.isActive true = .ok b →
      userViolations p m ≠ [] →
      prepareUserDoc p m = .error (userViolations p m)) ∧
    (∀ (p : UserPayload) (m : Mode) (msg : String),
      coerceBoolean p.isActive true = .error msg →
      prepareUserDoc p m = .error [msg]) := by
  refine ⟨?_, ?_, ?_⟩
  · intro p m h
    rw [prepareServiceDoc_eq, if_neg]
    simpa [List.isEmpty_iff] using h
  · intro p m b hco h
    rw [prepareUserDoc_eq]
    by_cases hg : p.isActive ≠ RawBool.undef ∨ m = Mode.full
    · rw [if_pos (by simpa using hg), hco]
      simp only []
      rw [if_neg]
      simpa [List.isEmpty_iff] using h
    · rw [if_neg (by simpa using hg)]
      rw [if_neg]
      simpa [List.isEmpty_iff] using h
  · intro p m msg hco
    have hne : p.isActive ≠ RawBool.undef := by
      intro hu
      rw [hu] at hco
      cases hco
    rw [prepareUserDoc_eq, if_pos (by simp [hne]), hco]

/-- Witness for C4's amended theorem: an all-absent Service payload, an
all-absent User payload, and a User payload with an invalid isActive. -/
theorem c4_witness :
    prepareServiceDoc {} .full = .error (serviceViolations {} .full) ∧
    prepareUserDoc {} .full = .error (userViolations {} .full) ∧
    prepareUserDoc { isActive := .str "banana" } .full =
      .error ["isActive must be a boolean value"] :=
  ⟨c4_all_violations_reported.1 {} .full (by decide),
   c4_all_violations_reported.2.1 {} .full true (by decide) (by decide),
   c4_all_violations_reported.2.2 { isActive := .str "banana" } .full
     "isActive must be a boolean value" (by decide)⟩

/-! ### Claim C5 -/

theorem prepServiceOk (p : ServicePayload) (m : Mode) (doc : ServiceFields)
    (h : prepareServiceDoc p m = .ok doc) :
    serviceViolations p m = [] ∧ doc = serviceDocOf p m := by
  rw [prepareServiceDoc_eq] at h
  by_cases hv : (serviceViolations p m).isEmpty = true
  · rw [if_pos hv] at h
    exact ⟨List.isEmpty_iff.mp hv, (Except.ok.inj h).symm⟩
  · rw [if_neg hv] at h; cases h

theorem append6_eq_nil {α : Type} {a b c d e f : List α}
    (h : a ++ b ++ c ++ d ++ e ++ f = []) :
    a = [] ∧ b = [] ∧ c = [] ∧ d = [] ∧ e = [] ∧ f = [] := by
  simp [List.append_eq_nil] at h
  tauto

theorem append8_eq_nil {α : Type} {a b c d e f g k : List α}
    (h : a ++ b ++ c ++ d ++ e ++ f ++ g ++ k = []) :
    a = [] ∧ b = [] ∧ c = [] ∧ d = [] ∧ e = [] ∧ f = [] ∧ g = [] ∧ k = [] := by
  simp [List.append_eq_nil] at h
  tauto

theorem required_truthy (f : String) (raw : RawVal) (o : StrOpts)
    (hreq : o.required = true) (h : fieldViolations f raw o .full = []) :
    truthy (sanitizeString raw o) = true := by
  cases ht : truthy (sanitizeString raw o)
  · unfold fieldViolations at h
    simp [ht, hreq] at h
  · rfl

theorem required_field_val (f : String) (raw : RawVal) (o : StrOpts)
    (hreq : o.required = true) (h : fieldViolations f raw o .full = []) :
    (assignResult f raw o .full).1 = sanitizeString raw o := by
  rw [assign_truthy f raw o .full (required_truthy f raw o hreq h)]

theorem optional_field_val (f : String) (raw : RawVal) (o : StrOpts)
    (hreq : o.required = false) :
    (assignResult f raw o .full).1 =
      if truthy (sanitizeString raw o) then sanitizeString raw o else o.dflt := by
  cases ht : truthy (sanitizeString raw o)
  · rw [assign_falsy_full_optional f raw o ht hreq]
    simp
  · rw [assign_truthy f raw o .full ht]
    simp

theorem prepUserOk_full (p : UserPayload) (doc : UserFields)
    (h : prepareUserDoc p .full = .ok doc) :
    userViolations p .full = [] ∧
    ∃ b, coerceBoolean p.isActive true = .ok b ∧
      doc = userDocOf p .full (some b) := by
  rw [prepareUserDoc_eq] at h
  rw [if_pos (by simp)] at h
  cases hco : coerceBoolean p.isActive true with
  | error msg =>
    rw [hco] at h
    simp only [] at h
    cases h
  | ok b =>
    rw [hco] at h
    simp only [] at h
    by_cases hv : (userViolations p .full).isEmpty = true
    · rw [if_pos hv] at h
      exact ⟨List.isEmpty_iff.mp hv, b, rfl, (Except.ok.inj h).symm⟩
    · rw [if_neg hv] at h; cases h

/-- C5: every creation input that passes validation yields a record whose
required string fields equal the sanitized (trimmed, and where declared
lower-cased) input, whose optional fields equal the sanitized input when
supplied and their declared default when absent (photo placeholders,
empty intro/aboutYourself/strikerPrice, all-empty socialLinks, isActive
true), and whose `createdAt` equals `updatedAt` — for `createService` and
`createUser`. -/
theorem c5_create_fields :
    (∀ (p : ServicePayload) (store : List ServiceRecord) (now newId : Nat)
        (doc : ServiceFields),
      prepareServiceDoc p .full = .ok doc →
      ∃ rec : ServiceRecord,
        createService store p now newId = .ok (rec, store ++ [rec]) ∧
        rec.createdAt = now ∧ rec.updatedAt = now ∧
        rec.fields.serviceName = sanitizeString p.serviceName serviceNameOpts ∧
        rec.fields.shortDescription =
          sanitizeString p.shortDescription shortDescriptionOpts ∧
        rec.fields.content = sanitizeString p.content contentOpts ∧
        rec.fields.price = sanitizeString p.price priceOpts ∧
        rec.fields.servicePhoto =
          (if truthy (sanitizeString p.servicePhoto servicePhotoOpts) then
            sanitizeString p.servicePhoto servicePhotoOpts
          else some DEFAULT_SERVICE_PHOTO) ∧
        rec.fields.strikerPrice =
          (if truthy (sanitizeString p.strikerPrice strikerPriceOpts) then
            sanitizeString p.strikerPrice strikerPriceOpts
          else some "")) ∧
    (∀ (p : UserPayload) (store : List UserRecord) (now newId : Nat)
        (doc : UserFields),
      prepareUserDoc p .full = .ok doc →
      (store.any fun x => x.fields.email = doc.email) = false →
      (store.any fun x => x.fields.truvedaLink = doc.truvedaLink) = false →
      ∃ rec : UserRecord,
        createUser store p now newId = .ok (applyVirtuals rec, store ++ [rec]) ∧
        rec.createdAt = now ∧ rec.updatedAt = now ∧
        rec.fields.truvedaLink = sanitizeString p.truvedaLink truvedaLinkOpts ∧
        rec.fields.firstName = sanitizeString p.firstName firstNameOpts ∧
        rec.fields.lastName = sanitizeString p.lastName lastNameOpts ∧
        rec.fields.displayName = sanitizeString p.displayName displayNameOpts ∧
        rec.fields.email = sanitizeString p.email emailOpts ∧
        rec.fields.profilePhoto =
          (if truthy (sanitizeString p.profilePhoto profilePhotoOpts) then
            sanitizeString p.profilePhoto profilePhotoOpts
          else some DEFAULT_PROFILE_PHOTO) ∧
        rec.fields.intro =
          (if truthy (sanitizeString p.intro introOpts) then
            sanitizeString p.intro introOpts
          else some "") ∧
        rec.fields.aboutYourself =
          (if truthy (sanitizeString p.aboutYourself aboutYourselfOpts) then
            sanitizeString p.aboutYourself aboutYourselfOpts
          else some "") ∧
        (p.socialLinks = none → rec.fields.socialLinks = some defaultSLDoc) ∧
        (p.isActive = .undef → rec.fields.isActive = some true)) := by
  constructor
  · intro p store now newId doc hprep
    obtain ⟨hv, hdoc⟩ := prepServiceOk p .full doc hprep
    unfold serviceViolations at hv
    obtain ⟨hv0, hv1, hv2, hv3, hv4, hv5⟩ := append6_eq_nil hv
    refine ⟨{ rid := newId, fields := doc, createdAt := now, updatedAt := now },
      ?_, rfl, rfl, ?_, ?_, ?_, ?_, ?_, ?_⟩
    · unfold createService
      rw [hprep]
    · rw [hdoc]
      exact required_field_val _ _ _ rfl hv1
    · rw [hdoc]
      exact required_field_val _ _ _ rfl hv2
    · rw [hdoc]
      exact required_field_val _ _ _ rfl hv3
    · rw [hdoc]
      exact required_field_val _ _ _ rfl hv4
    · rw [hdoc]
      exact optional_field_val _ _ _ rfl
    · rw [hdoc]
      exact optional_field_val _ _ _ rfl
  · intro p store now newId doc hprep hde hdt
    obtain ⟨hv, b, hco, hdoc⟩ := prepUserOk_full p doc hprep
    unfold userViolations at hv
    obtain ⟨hv0, hv1, hv2, hv3, hv4, hv5, hv6, hv7⟩ := append8_eq_nil hv
    refine ⟨{ rid := newId, fields := doc, createdAt := now, updatedAt := now },
      ?_, rfl, rfl, ?_, ?_, ?_, ?_, ?_, ?_, ?_, ?_, ?_, ?_⟩
    · unfold createUser
      rw [hprep]
      simp only []
      unfold userInsertOne
      simp [hde, hdt]
    · rw [hdoc]
      exact required_field_val _ _ _ rfl hv1
    · rw [hdoc]
      exact required_field_val _ _ _ rfl hv2
    · rw [hdoc]
      exact required_field_val _ _ _ rfl hv3
    · rw [hdoc]
      exact required_field_val _ _ _ rfl hv4
    · rw [hdoc]
      exact required_field_val _ _ _ rfl hv7
    · rw [hdoc]
      exact optional_field_val _ _ _ rfl
    · rw [hdoc]
      exact optional_field_val _ _ _ rfl
    · rw [hdoc]
      exact optional_field_val _ _ _ rfl
    · intro hsl
      rw [hdoc]
      show slDocOf p .full = some defaultSLDoc
      unfold slDocOf buildSocialLinks
      rw [hsl]
      rfl
    · intro hact
      rw [hact] at hco
      have hb : b = true := by
        injection hco with h2
        exact h2.symm
      rw [hdoc, hb]
      rfl

/-- Witness for C5 at a concrete Service creation and a concrete User
creation. -/
theorem c5_witness :
    (∃ rec : ServiceRecord,
      createService [] { serviceName := .str " Yoga ", shortDescription := .str "d",
                         content := .str "c", price := .str "10" } 3 1 =
        .ok (rec, [] ++ [rec]) ∧
      rec.createdAt = 3 ∧ rec.updatedAt = 3 ∧
      rec.fields.serviceName = sanitizeString (.str " Yoga ") serviceNameOpts) ∧
    (∃ rec : UserRecord,
      createUser [] { truvedaLink := .str " Ab_1 ", firstName := .str "A",
                      lastName := .str "B", displayName := .str "AB",
                      email := .str " X@Y.com " } 3 1 =
        .ok (applyVirtuals rec, [] ++ [rec]) ∧
      rec.createdAt = 3 ∧ rec.updatedAt = 3) := by
  constructor
  · obtain ⟨rec, h1, h2, h3, h4, _⟩ :=
      c5_create_fields.1
        { serviceName := .str " Yoga ", shortDescription := .str "d",
          content := .str "c", price := .str "10" } [] 3 1
        { servicePhoto := some DEFAULT_SERVICE_PHOTO, serviceName := some "Yoga",
          shortDescription := some "d", content := some "c", price := some "10",
          strikerPrice := some "" }
        (by decide)
    exact ⟨rec, h1, h2, h3, h4⟩
  · obtain ⟨rec, h1, h2, h3, _⟩ :=
      c5_create_fields.2
        { truvedaLink := .str " Ab_1 ", firstName := .str "A",
          lastName := .str "B", displayName := .str "AB",
          email := .str " X@Y.com " } [] 3 1
        { profilePhoto := some DEFAULT_PROFILE_PHOTO, truvedaLink := some "ab_1",
          firstName := some "A", lastName := some "B", displayName := some "AB",
          intro := some "", aboutYourself := some "", email := some "x@y.com",
          socialLinks := some defaultSLDoc, isActive := some true }
        (by decide) (by decide) (by decide)
    exact ⟨rec, h1, h2, h3⟩

/-! ### Claim C3 -/

theorem updateService_ok_some (store : List ServiceRecord) (id : String)
    (data : ServicePayload) (now : Nat) (res : ServiceRecord)
    (store' : List ServiceRecord)
    (h : updateService store id data now = .ok (some res, store')) :
    updateFirstService store (objectIdVal (jsTrim id))
      (applyServiceUpdates · (serviceDocOf data .part) now) =
      (some res, store') := by
  unfold updateService at h
  rw [prepareServiceDoc_eq] at h
  by_cases hv : (serviceViolations data .part).isEmpty = true
  · rw [if_pos hv] at h
    simp only [] at h
    by_cases he : (serviceDocOf data .part).isEmptyDoc = true
    · rw [if_pos he] at h; cases h
    · rw [if_neg he] at h
      cases ht : toObjectId "Invalid service id" id with
      | error e => rw [ht] at h; cases h
      | ok oid =>
        rw [ht] at h
        have hoid : oid = objectIdVal (jsTrim id) := by
          unfold toObjectId at ht
          by_cases hc : ((jsTrim id).length != 0 && isValidObjectId (jsTrim id)) = true
          · rw [if_pos hc] at ht
            injection ht with h2
            exact h2.symm
          · rw [if_neg hc] at ht; cases ht
        subst hoid
        injection h
  · rw [if_neg hv] at h; cases h

theorem prepUserOk_part (p : UserPayload) (doc : UserFields)
    (h : prepareUserDoc p .part = .ok doc) :
    ∃ act, doc = userDocOf p .part act ∧
      (p.isActive = RawBool.undef → act = none) := by
  rw [prepareUserDoc_eq] at h
  by_cases hu : p.isActive = RawBool.undef
  · rw [if_neg (by simp [hu])] at h
    by_cases hv : (userViolations p .part).isEmpty = true
    · rw [if_pos hv] at h
      exact ⟨none, (Except.ok.inj h).symm, fun _ => rfl⟩
    · rw [if_neg hv] at h; cases h
  · rw [if_pos (by simp [hu])] at h
    cases hco : coerceBoolean p.isActive true with
    | error msg =>
      rw [hco] at h
      simp only [] at h
      cases h
    | ok b =>
      rw [hco] at h
      simp only [] at h
      by_cases hv : (userViolations p .part).isEmpty = true
      · rw [if_pos hv] at h
        exact ⟨some b, (Except.ok.inj h).symm, fun hx => absurd hx hu⟩
      · rw [if_neg hv] at h; cases h

theorem updateUser_ok_some (store : List UserRecord) (id : String)
    (data : UserPayload) (now : Nat) (view : UserView)
    (store' : List UserRecord)
    (h : updateUser store id data now = .ok (some view, store')) :
    ∃ u rec', prepareUserDoc data .part = .ok u ∧
      updateFirstUser store (objectIdVal (jsTrim id))
        (applyUserUpdates · u now) = (some rec', store') ∧
      view = applyVirtuals rec' := by
  unfold updateUser at h
  cases hp : prepareUserDoc data .part with
  | error es => rw [hp] at h; cases h
  | ok u =>
    rw [hp] at h
    simp only [] at h
    by_cases he : u.isEmptyDoc = true
    · rw [if_pos he] at h; cases h
    · rw [if_neg he] at h
      cases ht : toObjectId "Invalid user id" id with
      | error e => rw [ht] at h; cases h
      | ok oid =>
        rw [ht] at h
        have hoid : oid = objectIdVal (jsTrim id) := by
          unfold toObjectId at ht
          by_cases hc : ((jsTrim id).length != 0 && isValidObjectId (jsTrim id)) = true
          · rw [if_pos hc] at ht
            injection ht with h2
            exact h2.symm
          · rw [if_neg hc] at ht; cases ht
        subst hoid
        have hpair := Except.ok.inj h
        have h1 : (updateFirstUser store (objectIdVal (jsTrim id))
            (applyUserUpdates · u now)).1.map applyVirtuals = some view :=
          congrArg Prod.fst hpair
        have h2 : (updateFirstUser store (objectIdVal (jsTrim id))
            (applyUserUpdates · u now)).2 = store' :=
          congrArg Prod.snd hpair
        cases hr : (updateFirstUser store (objectIdVal (jsTrim id))
            (applyUserUpdates · u now)).1 with
        | none => rw [hr] at h1; cases h1
        | some rec' =>
          rw [hr] at h1
          refine ⟨u, rec', rfl, ?_, (Option.some.inj h1).symm⟩
          calc updateFirstUser store (objectIdVal (jsTrim id))
                (applyUserUpdates · u now)
              = ((updateFirstUser store (objectIdVal (jsTrim id))
                  (applyUserUpdates · u now)).1,
                 (updateFirstUser store (objectIdVal (jsTrim id))
                  (applyUserUpdates · u now)).2) := rfl
            _ = (some rec', store') := by rw [hr, h2]

/-- C3: a partial update never touches a stored field that the request did
not include, keeps `createdAt`, stamps `updatedAt` with the update-time
clock, and therefore strictly increases `updatedAt` whenever the clock has
advanced past the stored `updatedAt` — for `updateService` and
`updateUser`. -/
theorem c3_update_frame :
    (∀ (store : List ServiceRecord) (id : String) (data : ServicePayload)
        (now : Nat) (rec res : ServiceRecord) (store' : List ServiceRecord),
      store.find? (fun x => x.rid = objectIdVal (jsTrim id)) = some rec →
      updateService store id data now = .ok (some res, store') →
      (data.servicePhoto = .undef → res.fields.servicePhoto = rec.fields.servicePhoto) ∧
      (data.serviceName = .undef → res.fields.serviceName = rec.fields.serviceName) ∧
      (data.shortDescription = .undef →
        res.fields.shortDescription = rec.fields.shortDescription) ∧
      (data.content = .undef → res.fields.content = rec.fields.content) ∧
      (data.price = .undef → res.fields.price = rec.fields.price) ∧
      (data.strikerPrice = .undef → res.fields.strikerPrice = rec.fields.strikerPrice) ∧
      res.createdAt = rec.createdAt ∧ res.updatedAt = now ∧
      (rec.updatedAt < now → rec.updatedAt < res.updatedAt)) ∧
    (∀ (store : List UserRecord) (id : String) (data : UserPayload)
        (now : Nat) (rec : UserRecord) (view : UserView)
        (store' : List UserRecord),
      store.find? (fun x => x.rid = objectIdVal (jsTrim id)) = some rec →
      updateUser store id data now = .ok (some view, store') →
      (data.profilePhoto = .undef →
        view.record.fields.profilePhoto = rec.fields.profilePhoto) ∧
      (data.truvedaLink = .undef →
        view.record.fields.truvedaLink = rec.fields.truvedaLink) ∧
      (data.firstName = .undef → view.record.fields.firstName = rec.fields.firstName) ∧
      (data.lastName = .undef → view.record.fields.lastName = rec.fields.lastName) ∧
      (data.displayName = .undef →
        view.record.fields.displayName = rec.fields.displayName) ∧
      (data.intro = .undef → view.record.fields.intro = rec.fields.intro) ∧
      (data.aboutYourself = .undef →
        view.record.fields.aboutYourself = rec.fields.aboutYourself) ∧
      (data.email = .undef → view.record.fields.email = rec.fields.email) ∧
      (data.socialLinks = none →
        view.record.fields.socialLinks = rec.fields.socialLinks) ∧
      (data.isActive = RawBool.undef →
        view.record.fields.isActive = rec.fields.isActive) ∧
      view.record.createdAt = rec.createdAt ∧ view.record.updatedAt = now ∧
      (rec.updatedAt < now → rec.updatedAt < view.record.updatedAt)) := by
  constructor
  · intro store id data now rec res store' hfind hupd
    have hpair := updateService_ok_some store id data now res store' hupd
    have h1 := updateFirstService_found store (objectIdVal (jsTrim id))
      (applyServiceUpdates · (serviceDocOf data .part) now) rec hfind
    rw [hpair] at h1
    have hres : res = applyServiceUpdates rec (serviceDocOf data .part) now :=
      Option.some.inj h1
    subst hres
    refine ⟨?_, ?_, ?_, ?_, ?_, ?_, rfl, rfl, fun hlt => hlt⟩
    all_goals intro hU
    · show setField (assignResult "servicePhoto" data.servicePhoto servicePhotoOpts .part).1
        rec.fields.servicePhoto = rec.fields.servicePhoto
      rw [hU]
      rfl
    · show setField (assignResult "serviceName" data.serviceName serviceNameOpts .part).1
        rec.fields.serviceName = rec.fields.serviceName
      rw [hU]
      rfl
    · show setField (assignResult "shortDescription" data.shortDescription
        shortDescriptionOpts .part).1 rec.fields.shortDescription =
        rec.fields.shortDescription
      rw [hU]
      rfl
    · show setField (assignResult "content" data.content contentOpts .part).1
        rec.fields.content = rec.fields.content
      rw [hU]
      rfl
    · show setField (assignResult "price" data.price priceOpts .part).1
        rec.fields.price = rec.fields.price
      rw [hU]
      rfl
    · show setField (assignResult "strikerPrice" data.strikerPrice strikerPriceOpts .part).1
        rec.fields.strikerPrice = rec.fields.strikerPrice
      rw [hU]
      rfl
  · intro store id data now rec view store' hfind hupd
    obtain ⟨u, rec', hprep, hpair, hview⟩ :=
      updateUser_ok_some store id data now view store' hupd
    obtain ⟨act, hdoc, hact⟩ := prepUserOk_part data u hprep
    have h1 := updateFirstUser_found store (objectIdVal (jsTrim id))
      (applyUserUpdates · u now) rec hfind
    rw [hpair] at h1
    have hrec' : rec' = applyUserUpdates rec u now := Option.some.inj h1
    subst hrec'
    subst hview
    subst hdoc
    refine ⟨?_, ?_, ?_, ?_, ?_, ?_, ?_, ?_, ?_, ?_, rfl, rfl, fun hlt => hlt⟩
    · intro hU
      show setField (assignResult "profilePhoto" data.profilePhoto profilePhotoOpts .part).1
        rec.fields.profilePhoto = rec.fields.profilePhoto
      rw [hU]
      rfl
    · intro hU
      show setField (assignResult "truvedaLink" data.truvedaLink truvedaLinkOpts .part).1
        rec.fields.truvedaLink = rec.fields.truvedaLink
      rw [hU]
      rfl
    · intro hU
      show setField (assignResult "firstName" data.firstName firstNameOpts .part).1
        rec.fields.firstName = rec.fields.firstName
      rw [hU]
      rfl
    · intro hU
      show setField (assignResult "lastName" data.lastName lastNameOpts .part).1
        rec.fields.lastName = rec.fields.lastName
      rw [hU]
      rfl
    · intro hU
      show setField (assignResult "displayName" data.displayName displayNameOpts .part).1
        rec.fields.displayName = rec.fields.displayName
      rw [hU]
      rfl
    · intro hU
      show setField (assignResult "intro" data.intro introOpts .part).1
        rec.fields.intro = rec.fields.intro
      rw [hU]
      rfl
    · intro hU
      show setField (assignResult "aboutYourself" data.aboutYourself aboutYourselfOpts .part).1
        rec.fields.aboutYourself = rec.fields.aboutYourself
      rw [hU]
      rfl
    · intro hU
      show setField (assignResult "email" data.email emailOpts .part).1
        rec.fields.email = rec.fields.email
      rw [hU]
      rfl
    · intro hSL
      show (match (userDocOf data .part act).socialLinks with
        | some sl => some sl
        | none => rec.fields.socialLinks) = rec.fields.socialLinks
      have : (userDocOf data .part act).socialLinks = none := by
        show slDocOf data .part = none
        unfold slDocOf buildSocialLinks
        rw [hSL]
        rfl
      rw [this]
    · intro hB
      show (match (userDocOf data .part act).isActive with
        | some b => some b
        | none => rec.fields.isActive) = rec.fields.isActive
      have : (userDocOf data .part act).isActive = none := hact hB
      rw [this]

/-- Witness for C3 at a concrete Service update and a concrete User
update (the clock advanced from 0 to 9). -/
theorem c3_witness :
    (({ rid := 1, fields := { serviceName := some "Yoga", price := some "5" },
        createdAt := 0, updatedAt := 9 } : ServiceRecord).fields.serviceName =
      some "Yoga") ∧
    (0 : Nat) < 9 := by
  constructor
  · have h := (c3_update_frame.1
      [{ rid := 1, fields := { serviceName := some "Yoga", price := some "1" },
         createdAt := 0, updatedAt := 0 }]
      "000000000000000000000001" { price := .str "5" } 9
      { rid := 1, fields := { serviceName := some "Yoga", price := some "1" },
        createdAt := 0, updatedAt := 0 }
      { rid := 1, fields := { serviceName := some "Yoga", price := some "5" },
        createdAt := 0, updatedAt := 9 }
      [{ rid := 1, fields := { serviceName := some "Yoga", price := some "5" },
         createdAt := 0, updatedAt := 9 }]
      (by decide) (by decide)).2.1 rfl
    simp at h
    simp [h]
  · decide

/-! ### Claim C6 -/

theorem effectivePage_ge_one (v : QVal) : 1 ≤ effectivePage v :=
  le_max_right _ _

theorem effectiveLimit_bounds (v : QVal) :
    1 ≤ effectiveLimit v ∧ effectiveLimit v ≤ 100 := by
  unfold effectiveLimit
  exact ⟨le_min (le_max_right _ _) (by norm_num), min_le_right _ _⟩

theorem totalPagesOf_eq (total l : Nat) (hl : 1 ≤ l) :
    totalPagesOf total l = (total + l - 1) / l := by
  unfold totalPagesOf
  by_cases h0 : total = 0
  · rw [if_pos h0, h0]
    have : l - 1 < l := by omega
    rw [Nat.div_eq_of_lt (by omega)]
  · rw [if_neg h0]

/-- C6 counterexample: a supplied limit of 0 yields an effective limit of
10 (the `parseInt(limit, 10) || 10` default), not the value 1 that
clamping 0 into [1,100] would give. -/
theorem c6_limit_counterexample :
    (listServices [] .undef (.int 0) "").limit = 10 ∧
    min (max (0 : Int) 1) 100 = 1 ∧
    (listServices [] .undef (.int 0) "").limit ≠ min (max (0 : Int) 1) 100 := by
  refine ⟨by decide, by decide, by decide⟩

/-- C6 (amended): for every list call the effective page is at least 1 and
the effective limit is `parseInt(limit) || 10` clamped into [1,100] — a
missing, non-numeric, or zero limit falls back to the default 10 before
clamping, so a supplied limit of 0 becomes 10, not 1; the returned page is
sorted by creation time descending; the result carries the count of
matching records and the total-page count `ceil(total / limit)` — for
`listServices` and `listUsers`. -/
theorem c6_list_pagination :
    (∀ (store : List ServiceRecord) (page limit : QVal) (search : String),
      1 ≤ (listServices store page limit search).page ∧
      (listServices store page limit search).limit =
        min (max (parsedOr limit 10) 1) 100 ∧
      1 ≤ (listServices store page limit search).limit ∧
      (listServices store page limit search).limit ≤ 100 ∧
      (listServices store page limit search).data.Pairwise
        (fun a b => b.createdAt ≤ a.createdAt) ∧
      (listServices store page limit search).total =
        (store.filter (serviceQueryMatches search)).length ∧
      (listServices store page limit search).totalPages =
        ((listServices store page limit search).total +
          (listServices store page limit search).limit.toNat - 1) /
          (listServices store page limit search).limit.toNat) ∧
    (∀ (store : List UserRecord) (page limit : QVal) (search : String),
      1 ≤ (listUsers store page limit search).page ∧
      (listUsers store page limit search).limit =
        min (max (parsedOr limit 10) 1) 100 ∧
      1 ≤ (listUsers store page limit search).limit ∧
      (listUsers store page limit search).limit ≤ 100 ∧
      (listUsers store page limit search).data.Pairwise
        (fun a b => b.record.createdAt ≤ a.record.createdAt) ∧
      (listUsers store page limit search).total =
        (store.filter (userQueryMatches search)).length ∧
      (listUsers store page limit search).totalPages =
        ((listUsers store page limit search).total +
          (listUsers store page limit search).limit.toNat - 1) /
          (listUsers store page limit search).limit.toNat) := by
  constructor
  · intro store page limit search
    refine ⟨effectivePage_ge_one page, rfl, (effectiveLimit_bounds limit).1,
      (effectiveLimit_bounds limit).2, ?_, rfl, ?_⟩
    · show ((((sortDescBy ServiceRecord.createdAt
          (store.filter (serviceQueryMatches search))).drop
            ((effectivePage page - 1) * effectiveLimit limit).toNat).take
            (effectiveLimit limit).toNat)).Pairwise
        (fun a b => b.createdAt ≤ a.createdAt)
      exact (sortDescBy_pairwise ServiceRecord.createdAt _).sublist
        ((List.take_sublist _ _).trans (List.drop_sublist _ _))
    · show totalPagesOf (store.filter (serviceQueryMatches search)).length
          (effectiveLimit limit).toNat = _
      have h1 : 1 ≤ (effectiveLimit limit).toNat := by
        have := (effectiveLimit_bounds limit).1
        omega
      rw [totalPagesOf_eq _ _ h1]
      rfl
  · intro store page limit search
    refine ⟨effectivePage_ge_one page, rfl, (effectiveLimit_bounds limit).1,
      (effectiveLimit_bounds limit).2, ?_, rfl, ?_⟩
    · show (((((sortDescBy UserRecord.createdAt
          (store.filter (userQueryMatches search))).drop
            ((effectivePage page - 1) * effectiveLimit limit).toNat).take
            (effectiveLimit limit).toNat)).map applyVirtuals).Pairwise
        (fun a b => b.record.createdAt ≤ a.record.createdAt)
      refine List.pairwise_map.mpr ?_
      have hp := (sortDescBy_pairwise UserRecord.createdAt
        (store.filter (userQueryMatches search))).sublist
        ((List.take_sublist (effectiveLimit limit).toNat
          ((sortDescBy UserRecord.createdAt
            (store.filter (userQueryMatches search))).drop
              ((effectivePage page - 1) * effectiveLimit limit).toNat)).trans
         (List.drop_sublist ((effectivePage page - 1) * effectiveLimit limit).toNat
          (sortDescBy UserRecord.createdAt
            (store.filter (userQueryMatches search)))))
      exact hp.imp (fun h => h)
    · show totalPagesOf (store.filter (userQueryMatches search)).length
          (effectiveLimit limit).toNat = _
      have h1 : 1 ≤ (effectiveLimit limit).toNat := by
        have := (effectiveLimit_bounds limit).1
        omega
      rw [totalPagesOf_eq _ _ h1]
      rfl

/-! ### Claim C8 -/

theorem dfie_unresolved (fs : List String) (r sfx : String)
    (h : resolveUploadPath r = none) :
    deleteFileIfExists fs (some r) sfx = .ok (fs, false) := by
  unfold deleteFileIfExists
  simp [h]

theorem dfie_default (fs : List String) (r sfx t : String)
    (h : resolveUploadPath r = some t) (he : jsEndsWith t sfx = true) :
    deleteFileIfExists fs (some r) sfx = .ok (fs, false) := by
  unfold deleteFileIfExists
  simp [h, he]

theorem dfie_missing (fs : List String) (r sfx t : String)
    (h : resolveUploadPath r = some t) (he : jsEndsWith t sfx = false)
    (hm : t ∉ fs) :
    deleteFileIfExists fs (some r) sfx = .ok (fs, false) := by
  unfold deleteFileIfExists unlink
  simp [h, he, hm]

theorem dfie_present (fs : List String) (r sfx t : String)
    (h : resolveUploadPath r = some t) (he : jsEndsWith t sfx = false)
    (hm : t ∈ fs) :
    deleteFileIfExists fs (some r) sfx =
      .ok (fs.filter (fun p => p ≠ t), false) := by
  unfold deleteFileIfExists unlink
  simp [h, he, hm]

/-- C8: `deleteFileIfExists` is a no-op, not an error, when the reference
resolves to a missing file or matches the entity's default-photo suffix;
and for any reference a second call after a first is again a no-op that
returns normally — deletion never raises. -/
theorem c8_delete_file_idempotent :
    (∀ (fs : List String) (r sfx t : String),
      resolveUploadPath r = some t → t ∉ fs →
      deleteFileIfExists fs (some r) sfx = .ok (fs, false)) ∧
    (∀ (fs : List String) (r sfx t : String),
      resolveUploadPath r = some t → jsEndsWith t sfx = true →
      deleteFileIfExists fs (some r) sfx = .ok (fs, false)) ∧
    (∀ (fs : List String) (ref : Option String) (sfx : String),
      ∃ fs1 w1, deleteFileIfExists fs ref sfx = .ok (fs1, w1) ∧
        deleteFileIfExists fs1 ref sfx = .ok (fs1, false)) := by
  refine ⟨?_, ?_, ?_⟩
  · intro fs r sfx t hres hmem
    by_cases hend : jsEndsWith t sfx = true
    · exact dfie_default fs r sfx t hres hend
    · exact dfie_missing fs r sfx t hres (by simpa using hend) hmem
  · intro fs r sfx t hres hend
    exact dfie_default fs r sfx t hres hend
  · intro fs ref sfx
    cases ref with
    | none => exact ⟨fs, false, rfl, rfl⟩
    | some r =>
      cases href : resolveUploadPath r with
      | none =>
        exact ⟨fs, false, dfie_unresolved fs r sfx href,
          dfie_unresolved fs r sfx href⟩
      | some t =>
        by_cases hend : jsEndsWith t sfx = true
        · exact ⟨fs, false, dfie_default fs r sfx t href hend,
            dfie_default fs r sfx t href hend⟩
        · have hend' : jsEndsWith t sfx = false := by simpa using hend
          by_cases hmem : t ∈ fs
          · refine ⟨fs.filter (fun p => p ≠ t), false,
              dfie_present fs r sfx t href hend' hmem, ?_⟩
            exact dfie_missing _ r sfx t href hend' (by simp)
          · exact ⟨fs, false, dfie_missing fs r sfx t href hend' hmem,
              dfie_missing fs r sfx t href hend' hmem⟩

/-- Witness for C8 at a concrete reference: deleting a missing file and the
default placeholder, each twice. -/
theorem c8_witness :
    deleteFileIfExists [] (some "/uploads/x.png") "default-service.png" =
      .ok ([], false) ∧
    deleteFileIfExists ["/srv/a"] (some DEFAULT_SERVICE_PHOTO)
      "default-service.png" = .ok (["/srv/a"], false) ∧
    (∃ fs1 w1,
      deleteFileIfExists ["/uploads/x.png"] (some "/uploads/x.png")
        "default-service.png" = .ok (fs1, w1) ∧
      deleteFileIfExists fs1 (some "/uploads/x.png")
        "default-service.png" = .ok (fs1, false)) :=
  ⟨c8_delete_file_idempotent.1 [] "/uploads/x.png" "default-service.png"
      "/uploads/x.png" (by decide) (by decide),
   c8_delete_file_idempotent.2.1 ["/srv/a"] DEFAULT_SERVICE_PHOTO
      "default-service.png" DEFAULT_SERVICE_PHOTO (by decide) (by decide),
   c8_delete_file_idempotent.2.2 ["/uploads/x.png"]
      (some "/uploads/x.png") "default-service.png"⟩

/-! ### Claim C7 -/

theorem cleanup_removes (fs : List String) (p sfx : String)
    (habs : jsStartsWith p "/" = true) (hsfx : jsEndsWith p sfx = false) :
    p ∉ cleanupOnError fs (some p) sfx := by
  have hlen : ¬ p.length = 0 := by
    unfold jsStartsWith at habs
    cases hd : p.data with
    | nil =>
      rw [hd] at habs
      exact absurd habs (by decide)
    | cons c cs =>
      have hpl : p.length = p.data.length := rfl
      rw [hpl, hd]
      simp
  have hres : resolveUploadPath p = some p := by
    unfold resolveUploadPath
    rw [if_neg hlen, if_pos habs]
  unfold cleanupOnError
  simp only []
  rw [if_neg hlen]
  unfold runDeleteFile
  by_cases hmem : p ∈ fs
  · rw [dfie_present fs p sfx p hres hsfx hmem]
    simp
  · rw [dfie_missing fs p sfx p hres hsfx hmem]
    exact hmem

/-- C7: whenever an uploaded file was written before a downstream failure,
the handler deletes that file before returning the error response: for
every outcome of the `updateService` handler or the `createUser` handler
with an error status (≥ 400), the uploaded file's path is absent from the
resulting filesystem. (Multer-generated paths are absolute and never end
with the default-photo name, which the two suffix hypotheses record.) -/
theorem c7_error_leaves_no_orphan :
    (∀ (store : List ServiceRecord) (fs : List String) (id : String)
        (body : ServicePayload) (f : UploadedFile) (now : Nat)
        (resp : HttpResponse) (store' : List ServiceRecord) (fs' : List String),
      jsStartsWith f.path "/" = true →
      jsEndsWith f.path "default-service.png" = false →
      serviceUpdateHandler store fs id body (some f) now = (resp, store', fs') →
      400 ≤ resp.status →
      f.path ∉ fs') ∧
    (∀ (store : List UserRecord) (fs : List String) (body : UserReqBody)
        (f : UploadedFile) (now newId : Nat)
        (resp : HttpResponse) (store' : List UserRecord) (fs' : List String),
      jsStartsWith f.path "/" = true →
      jsEndsWith f.path "default-avatar.png" = false →
      userCreateHandler store fs body (some f) now newId = (resp, store', fs') →
      400 ≤ resp.status →
      f.path ∉ fs') := by
  constructor
  · intro store fs id body f now resp store' fs' habs hsfx hH hstat
    unfold serviceUpdateHandler at hH
    simp only [Option.map] at hH
    cases hf : findServiceById store id with
    | error e =>
      rw [hf] at hH
      simp only [] at hH
      have hfs := congrArg (fun z => z.2.2) hH
      simp only [] at hfs
      rw [← hfs]
      exact cleanup_removes fs f.path _ habs hsfx
    | ok ro =>
      rw [hf] at hH
      cases ro with
      | none =>
        simp only [] at hH
        have hfs := congrArg (fun z => z.2.2) hH
        simp only [] at hfs
        rw [← hfs]
        exact cleanup_removes fs f.path _ habs hsfx
      | some service =>
        simp only [] at hH
        cases hu : updateService store id
            (serviceBuildPayload body (some ("/uploads/" ++ f.filename))) now with
        | error e =>
          rw [hu] at hH
          simp only [] at hH
          have hfs := congrArg (fun z => z.2.2) hH
          simp only [] at hfs
          rw [← hfs]
          exact cleanup_removes fs f.path _ habs hsfx
        | ok pair =>
          rw [hu] at hH
          cases pair with
          | mk opt st2 =>
            cases opt with
            | none =>
              simp only [] at hH
              have hfs := congrArg (fun z => z.2.2) hH
              simp only [] at hfs
              rw [← hfs]
              exact cleanup_removes fs f.path _ habs hsfx
            | some upd =>
              simp only [] at hH
              have hr := congrArg (fun z => z.1) hH
              simp only [] at hr
              rw [← hr] at hstat
              simp at hstat
  · intro store fs body f now newId resp store' fs' habs hsfx hH hstat
    unfold userCreateHandler at hH
    simp only [Option.map] at hH
    cases hsl : parseSocialLinksInput body.socialLinksRaw with
    | error e =>
      rw [hsl] at hH
      simp only [] at hH
      have hfs := congrArg (fun z => z.2.2) hH
      simp only [] at hfs
      rw [← hfs]
      exact cleanup_removes fs f.path _ habs hsfx
    | ok sl =>
      rw [hsl] at hH
      simp only [] at hH
      cases he : findUserByEmail store body.email with
      | some v =>
        rw [he] at hH
        simp only [] at hH
        have hfs := congrArg (fun z => z.2.2) hH
        simp only [] at hfs
        rw [← hfs]
        exact cleanup_removes fs f.path _ habs hsfx
      | none =>
        rw [he] at hH
        simp only [] at hH
        cases hl : findUserByTruvedaLink store body.truvedaLink with
        | some v =>
          rw [hl] at hH
          simp only [] at hH
          have hfs := congrArg (fun z => z.2.2) hH
          simp only [] at hfs
          rw [← hfs]
          exact cleanup_removes fs f.path _ habs hsfx
        | none =>
          rw [hl] at hH
          simp only [] at hH
          cases hc : createUser store
              (userBuildPayload body (some ("/uploads/" ++ f.filename)) sl)
              now newId with
          | error e =>
            rw [hc] at hH
            simp only [] at hH
            have hfs := congrArg (fun z => z.2.2) hH
            simp only [] at hfs
            rw [← hfs]
            exact cleanup_removes fs f.path _ habs hsfx
          | ok pair =>
            rw [hc] at hH
            cases pair with
            | mk view st2 =>
              simp only [] at hH
              have hr := congrArg (fun z => z.1) hH
              simp only [] at hr
              rw [← hr] at hstat
              simp at hstat

/-- Witness for C7 at a concrete failed update: a validation failure (no
fields survive sanitization) deletes the freshly uploaded file. -/
theorem c7_witness :
    ("/srv/user-profile-crud/uploads/profile-1-ab.png" :
      String) ∉
      (serviceUpdateHandler
        [{ rid := 1, fields := {}, createdAt := 0, updatedAt := 0 }]
        ["/srv/user-profile-crud/uploads/profile-1-ab.png"]
        "000000000000000000000001"
        { serviceName := .str (String.mk (List.replicate 101 'a')) }
        (some { path := "/srv/user-profile-crud/uploads/profile-1-ab.png",
                filename := "profile-1-ab.png" }) 5).2.2 := by
  have h := c7_error_leaves_no_orphan.1
    [{ rid := 1, fields := {}, createdAt := 0, updatedAt := 0 }]
    ["/srv/user-profile-crud/uploads/profile-1-ab.png"]
    "000000000000000000000001"
    { serviceName := .str (String.mk (List.replicate 101 'a')) }
    { path := "/srv/user-profile-crud/uploads/profile-1-ab.png",
      filename := "profile-1-ab.png" } 5
    (serviceUpdateHandler
      [{ rid := 1, fields := {}, createdAt := 0, updatedAt := 0 }]
      ["/srv/user-profile-crud/uploads/profile-1-ab.png"]
      "000000000000000000000001"
      { serviceName := .str (String.mk (List.replicate 101 'a')) }
      (some { path := "/srv/user-profile-crud/uploads/profile-1-ab.png",
              filename := "profile-1-ab.png" }) 5).1
    (serviceUpdateHandler
      [{ rid := 1, fields := {}, createdAt := 0, updatedAt := 0 }]
      ["/srv/user-profile-crud/uploads/profile-1-ab.png"]
      "000000000000000000000001"
      { serviceName := .str (String.mk (List.replicate 101 'a')) }
      (some { path := "/srv/user-profile-crud/uploads/profile-1-ab.png",
              filename := "profile-1-ab.png" }) 5).2.1
    (serviceUpdateHandler
      [{ rid := 1, fields := {}, createdAt := 0, updatedAt := 0 }]
      ["/srv/user-profile-crud/uploads/profile-1-ab.png"]
      "000000000000000000000001"
      { serviceName := .str (String.mk (List.replicate 101 'a')) }
      (some { path := "/srv/user-profile-crud/uploads/profile-1-ab.png",
              filename := "profile-1-ab.png" }) 5).2.2
    (by decide) (by decide) rfl (by decide)
  exact h

/-! ### Claim C9 -/

theorem sanitize_opts_eq (raw : RawVal) (o o' : StrOpts)
    (h1 : o.trim = o'.trim) (h2 : o.lower = o'.lower) :
    sanitizeString raw o = sanitizeString raw o' := by
  cases raw <;> simp [sanitizeString, h1, h2]

theorem findUserByEmail_none (store : List UserRecord) (e : RawVal)
    (h : findUserByEmail store e = none)
    (ht : truthy (sanitizeString e { lower := true }) = true) :
    ∀ r ∈ store, ¬ (r.fields.email = sanitizeString e { lower := true }) := by
  unfold findUserByEmail at h
  rw [if_neg (by simp [ht])] at h
  intro r hr
  have hf : store.find?
      (fun x => x.fields.email = sanitizeString e { lower := true }) = none := by
    cases hfo : store.find?
        (fun x => x.fields.email = sanitizeString e { lower := true }) with
    | none => rfl
    | some v => rw [hfo] at h; simp at h
  have h2 := List.find?_eq_none.mp hf r hr
  simpa using h2

theorem findUserByTruvedaLink_none (store : List UserRecord) (e : RawVal)
    (h : findUserByTruvedaLink store e = none)
    (ht : truthy (sanitizeString e { lower := true }) = true) :
    ∀ r ∈ store, ¬ (r.fields.truvedaLink = sanitizeString e { lower := true }) := by
  unfold findUserByTruvedaLink at h
  rw [if_neg (by simp [ht])] at h
  intro r hr
  have hf : store.find?
      (fun x => x.fields.truvedaLink = sanitizeString e { lower := true }) = none := by
    cases hfo : store.find?
        (fun x => x.fields.truvedaLink = sanitizeString e { lower := true }) with
    | none => rfl
    | some v => rw [hfo] at h; simp at h
  have h2 := List.find?_eq_none.mp hf r hr
  simpa using h2

theorem createUser_ok (store : List UserRecord) (p : UserPayload)
    (now nid : Nat) (doc : UserFields)
    (hprep : prepareUserDoc p .full = .ok doc)
    (hde : store.any (fun x => x.fields.email = doc.email) = false)
    (hdt : store.any (fun x => x.fields.truvedaLink = doc.truvedaLink) = false) :
    createUser store p now nid =
      .ok (applyVirtuals
            { rid := nid, fields := doc, createdAt := now, updatedAt := now },
           store ++
            [{ rid := nid, fields := doc, createdAt := now, updatedAt := now }]) := by
  unfold createUser
  rw [hprep]
  simp only []
  unfold userInsertOne
  rw [if_neg (by simp [hde]), if_neg (by simp [hdt])]

/-- C9: two sequential User creation requests with the same email up to
case (both otherwise valid, with distinct link handles) produce exactly
one success and one conflict — the first responds 201 and stores the
record, the second responds 409 with "Email already exists" and leaves
store and filesystem untouched. -/
theorem c9_duplicate_email_conflict (store0 : List UserRecord)
    (fs : List String) (req1 req2 : UserReqBody) (t1 n1 t2 n2 : Nat)
    (sl1 : Option SLPayload) (doc1 : UserFields)
    (hsl1 : parseSocialLinksInput req1.socialLinksRaw = .ok sl1)
    (hemail0 : findUserByEmail store0 req1.email = none)
    (hlink0 : findUserByTruvedaLink store0 req1.truvedaLink = none)
    (hprep : prepareUserDoc
      (userBuildPayload req1 (some DEFAULT_PROFILE_PHOTO) sl1) .full = .ok doc1)
    (hsl2 : ∃ sl2, parseSocialLinksInput req2.socialLinksRaw = .ok sl2)
    (heq : sanitizeString req2.email { lower := true } =
           sanitizeString req1.email { lower := true }) :
    ∃ rec1 : UserRecord,
      userCreateHandler store0 fs req1 none t1 n1 =
        ({ status := 201, message := "User created successfully" },
         store0 ++ [rec1], fs) ∧
      userCreateHandler (store0 ++ [rec1]) fs req2 none t2 n2 =
        ({ status := 409, message := "Email already exists" },
         store0 ++ [rec1], fs) := by
  obtain ⟨hv, b, hco, hdoc⟩ := prepUserOk_full _ doc1 hprep
  unfold userViolations at hv
  obtain ⟨hv0, hv1, hv2, hv3, hv4, hv5, hv6, hv7⟩ := append8_eq_nil hv
  have hEmailVal : doc1.email = sanitizeString req1.email { lower := true } := by
    rw [hdoc]
    have h1 := required_field_val "email"
      (userBuildPayload req1 (some DEFAULT_PROFILE_PHOTO) sl1).email emailOpts rfl hv7
    exact h1.trans (sanitize_opts_eq _ emailOpts { lower := true } rfl rfl)
  have htN1 : truthy (sanitizeString req1.email { lower := true }) = true := by
    have h1 := required_truthy "email"
      (userBuildPayload req1 (some DEFAULT_PROFILE_PHOTO) sl1).email emailOpts rfl hv7
    rw [← sanitize_opts_eq req1.email emailOpts { lower := true } rfl rfl]
    exact h1
  have hLinkVal : doc1.truvedaLink =
      sanitizeString req1.truvedaLink { lower := true } := by
    rw [hdoc]
    have h1 := required_field_val "truvedaLink"
      (userBuildPayload req1 (some DEFAULT_PROFILE_PHOTO) sl1).truvedaLink
      truvedaLinkOpts rfl hv1
    exact h1.trans (sanitize_opts_eq _ truvedaLinkOpts { lower := true } rfl rfl)
  have hallE := findUserByEmail_none store0 req1.email hemail0 htN1
  have htLink : truthy (sanitizeString req1.truvedaLink { lower := true }) = true := by
    have h1 := required_truthy "truvedaLink"
      (userBuildPayload req1 (some DEFAULT_PROFILE_PHOTO) sl1).truvedaLink
      truvedaLinkOpts rfl hv1
    rw [← sanitize_opts_eq req1.truvedaLink truvedaLinkOpts { lower := true } rfl rfl]
    exact h1
  have hallL := findUserByTruvedaLink_none store0 req1.truvedaLink hlink0 htLink
  have hde : store0.any (fun x => x.fields.email = doc1.email) = false := by
    simp only [List.any_eq_false]
    intro x hx
    rw [hEmailVal]
    simpa using hallE x hx
  have hdt : store0.any (fun x => x.fields.truvedaLink = doc1.truvedaLink) = false := by
    simp only [List.any_eq_false]
    intro x hx
    rw [hLinkVal]
    simpa using hallL x hx
  refine ⟨{ rid := n1, fields := doc1, createdAt := t1, updatedAt := t1 }, ?_, ?_⟩
  · unfold userCreateHandler
    rw [hsl1]
    simp only []
    rw [hemail0]
    simp only []
    rw [hlink0]
    simp only []
    rw [createUser_ok store0 _ t1 n1 doc1 hprep hde hdt]
  · obtain ⟨sl2, hsl2'⟩ := hsl2
    have hfind2 : findUserByEmail
        (store0 ++ [{ rid := n1, fields := doc1, createdAt := t1, updatedAt := t1 }])
        req2.email =
        some (applyVirtuals
          { rid := n1, fields := doc1, createdAt := t1, updatedAt := t1 }) := by
      unfold findUserByEmail
      have ht2 : truthy (sanitizeString req2.email { lower := true }) = true := by
        rw [heq]
        exact htN1
      rw [if_neg (by simp [ht2])]
      rw [List.find?_append]
      have h0 : store0.find?
          (fun x => x.fields.email = sanitizeString req2.email { lower := true }) =
          none := by
        apply List.find?_eq_none.mpr
        intro x hx
        rw [heq]
        simpa using hallE x hx
      rw [h0]
      have hp : doc1.email = sanitizeString req2.email { lower := true } := by
        rw [heq]
        exact hEmailVal
      simp [List.find?, hp]
    unfold userCreateHandler
    rw [hsl2']
    simp only []
    rw [hfind2]
    rfl

/-- Witness for C9: two concrete creation requests with the same email up
to case. -/
theorem c9_witness :
    ∃ rec1 : UserRecord,
      userCreateHandler [] []
        { truvedaLink := .str "alice", firstName := .str "A",
          lastName := .str "B", displayName := .str "AB",
          email := .str "Alice@Mail.com" } none 1 10 =
        ({ status := 201, message := "User created successfully" },
         [] ++ [rec1], []) ∧
      userCreateHandler ([] ++ [rec1]) []
        { truvedaLink := .str "bob", firstName := .str "C",
          lastName := .str "D", displayName := .str "CD",
          email := .str "ALICE@mail.COM" } none 2 11 =
        ({ status := 409, message := "Email already exists" },
         [] ++ [rec1], []) :=
  c9_duplicate_email_conflict [] []
    { truvedaLink := .str "alice", firstName := .str "A",
      lastName := .str "B", displayName := .str "AB",
      email := .str "Alice@Mail.com" }
    { truvedaLink := .str "bob", firstName := .str "C",
      lastName := .str "D", displayName := .str "CD",
      email := .str "ALICE@mail.COM" }
    1 10 2 11 none
    { profilePhoto := some DEFAULT_PROFILE_PHOTO, truvedaLink := some "alice",
      firstName := some "A", lastName := some "B", displayName := some "AB",
      intro := some "", aboutYourself := some "", email := some "alice@mail.com",
      socialLinks := some defaultSLDoc, isActive := some true }
    (by decide) (by decide) (by decide) (by decide)
    ⟨none, by decide⟩ (by decide)

end CrudApp
